import Mathlib

/-!
# Verification of `egui_glow::painter` (crates/egui_glow/src/painter.rs)

A shallow embedding of the glow-based egui painter.  GPU device state is an
explicit record (`GlState`); each OpenGL call in the source becomes a record
update, and the observable occurrences the specification talks about (draw
calls, buffer uploads, texture uploads/frees, warnings) are additionally
recorded in an event trace.  Floating-point quantities (`f32` in the source)
are idealised as rationals; `f32::round` (round half away from zero) is
modelled exactly on ℚ.  `assert!`-style panics in the source are modelled by
`Option`-valued operations returning `none`; `debug_assert!` is compiled out
in release builds and is not modelled.
-/

set_option autoImplicit false

namespace EguiGlow

/-- Association-list lookup, modelling `HashMap::get`. -/
def lookupA {κ α : Type} [DecidableEq κ] (k : κ) : List (κ × α) → Option α
  | [] => none
  | (k', v) :: t => if k = k' then some v else lookupA k t

/-- Association-list insert/replace, modelling `HashMap::insert`'s effect on the map. -/
def insertA {κ α : Type} [DecidableEq κ] (k : κ) (v : α) : List (κ × α) → List (κ × α)
  | [] => [(k, v)]
  | (k', v') :: t => if k = k' then (k, v) :: t else (k', v') :: insertA k v t

/-- Association-list removal, modelling `HashMap::remove`'s effect on the map. -/
def removeA {κ α : Type} [DecidableEq κ] (k : κ) : List (κ × α) → List (κ × α)
  | [] => []
  | (k', v') :: t => if k = k' then t else (k', v') :: removeA k t

/-- `egui::TextureId`: managed ids are allocated by egui itself, user ids by
`register_native_texture` (source keeps them in disjoint namespaces). -/
inductive TextureId where
  | managed (n : Nat)
  | user (n : Nat)
deriving DecidableEq, Repr

/-- An RGBA byte quadruple (`egui::Color32`). -/
abbrev Color32 := Nat × Nat × Nat × Nat

/-- One texel as uploaded to the device.  A `Color32` texel is uploaded
byte-for-byte; a font-coverage texel is converted by
`FontImage::srgba_pixels(gamma)` (epaint, outside this crate), which we keep
symbolic as the pair (gamma, coverage) — the claims only inspect which gamma
was used, never the numeric result of the float `powf`. -/
inductive Texel where
  | color (c : Color32)
  | font (gamma : ℚ) (coverage : ℚ)
deriving DecidableEq, Repr

/-- `egui::ColorImage`: full-color image (size in texels plus pixel list). -/
structure ColorImage where
  size : Nat × Nat
  pixels : List Color32
deriving DecidableEq, Repr

def ColorImage.width (im : ColorImage) : Nat := im.size.1

def ColorImage.height (im : ColorImage) : Nat := im.size.2

/-- `egui::FontImage`: one rational coverage value per texel. -/
structure FontImage where
  size : Nat × Nat
  pixels : List ℚ
deriving DecidableEq, Repr

def FontImage.width (im : FontImage) : Nat := im.size.1

def FontImage.height (im : FontImage) : Nat := im.size.2

/-- `egui::ImageData`. -/
inductive ImageData where
  | color (im : ColorImage)
  | font (im : FontImage)
deriving DecidableEq, Repr

/-- Width of an image of either kind (`ImageData::width`). -/
def ImageData.width : ImageData → Nat
  | ImageData.color im => im.width
  | ImageData.font im => im.width

/-- Height of an image of either kind (`ImageData::height`). -/
def ImageData.height : ImageData → Nat
  | ImageData.color im => im.height
  | ImageData.font im => im.height

/-- Texel count of an image of either kind. -/
def ImageData.count : ImageData → Nat
  | ImageData.color im => im.pixels.length
  | ImageData.font im => im.pixels.length

/-- `egui::TextureFilter`. -/
inductive TextureFilter where
  | linear
  | nearest
deriving DecidableEq, Repr

/-- `egui::epaint::ImageDelta`: full replacement when `pos = none`,
sub-region patch at offset `pos` otherwise. -/
structure ImageDelta where
  image : ImageData
  pos : Option (Nat × Nat)
  filter : TextureFilter
deriving DecidableEq, Repr

/-- `egui::TexturesDelta`: updates applied before the frame, frees after. -/
structure TexturesDelta where
  set : List (TextureId × ImageDelta)
  free : List TextureId
deriving DecidableEq, Repr

/-! ## Geometry: `emath` points and rectangles, with ℚ coordinates -/

structure Pos2 where
  x : ℚ
  y : ℚ
deriving DecidableEq, Repr

structure Rect where
  min : Pos2
  max : Pos2
deriving DecidableEq, Repr

/-- `Rect::is_positive` (emath): strictly positive width and height. -/
def Rect.is_positive (r : Rect) : Prop := r.min.x < r.max.x ∧ r.min.y < r.max.y

instance (r : Rect) : Decidable r.is_positive := by
  unfold Rect.is_positive; infer_instance

/-- `f32::round`: round to nearest, ties away from zero, exactly on ℚ.
For `q ≥ 0` this is `⌊q + 1/2⌋`; for `q < 0` it is `⌈q - 1/2⌉`. -/
def round_away (q : ℚ) : ℤ := if 0 ≤ q then ⌊q + 1/2⌋ else ⌈q - 1/2⌉

/-- `i32::clamp` (with `lo ≤ hi`, as in the source where `lo` is `0` or an
already-clamped coordinate and `hi` a framebuffer size). -/
def clampI (x lo hi : ℤ) : ℤ := max lo (min x hi)

/-! ## GL constants used by the painter (values from the GL spec via `glow`) -/

def GL_ONE : Nat := 1
def GL_ONE_MINUS_SRC_ALPHA : Nat := 0x0303
def GL_ONE_MINUS_DST_ALPHA : Nat := 0x0305
def GL_FUNC_ADD : Nat := 0x8006
def GL_TEXTURE0 : Nat := 0x84C0
def GL_ARRAY_BUFFER : Nat := 0x8892
def GL_ELEMENT_ARRAY_BUFFER : Nat := 0x8893
def GL_RGBA : Nat := 0x1908
def GL_SRGB_ALPHA : Nat := 0x8C42
def GL_SRGB8_ALPHA8 : Nat := 0x8C43

/-! ## Device state -/

/-- Contents of one device texture: storage size and texel data
(`tex_image_2d` replaces the whole record, `tex_sub_image_2d` patches it). -/
structure TexContents where
  w : Nat
  h : Nat
  data : List Texel
deriving DecidableEq, Repr

/-- The mutable GL device state touched by the painter.  Each field mirrors a
piece of GL state the source sets via `glow` calls. -/
structure GlState where
  scissorTest : Bool
  cullFace : Bool
  depthTest : Bool
  colorMask : Bool × Bool × Bool × Bool
  blendEnabled : Bool
  blendEquation : Nat × Nat
  blendFunc : Nat × Nat × Nat × Nat
  framebufferSrgb : Bool
  viewport : ℤ × ℤ × ℤ × ℤ
  scissor : ℤ × ℤ × ℤ × ℤ
  program : Option Nat
  uScreenSize : Option (ℚ × ℚ)
  uSampler : Option ℤ
  activeTexture : Nat
  vaoBound : Bool
  arrayBuffer : Option Nat
  elementArrayBuffer : Option Nat
  boundTexture : Option Nat
  boundFramebuffer : Option Nat
  textureContents : List (Nat × TexContents)
  nextTex : Nat
deriving DecidableEq, Repr

/-! ## Clip/scissor translation (`set_clip_rect`, painter.rs lines 736–768) -/

/-- The four scaled, rounded and clamped clip coordinates
`(clip_min_x, clip_min_y, clip_max_x, clip_max_y)` of `set_clip_rect`. -/
def clamped_clip_bounds (size_in_pixels : Nat × Nat) (pixels_per_point : ℚ)
    (clip_rect : Rect) : ℤ × ℤ × ℤ × ℤ :=
  let clip_min_x := round_away (pixels_per_point * clip_rect.min.x)
  let clip_min_y := round_away (pixels_per_point * clip_rect.min.y)
  let clip_max_x := round_away (pixels_per_point * clip_rect.max.x)
  let clip_max_y := round_away (pixels_per_point * clip_rect.max.y)
  let clip_min_x := clampI clip_min_x 0 (size_in_pixels.1 : ℤ)
  let clip_min_y := clampI clip_min_y 0 (size_in_pixels.2 : ℤ)
  let clip_max_x := clampI clip_max_x clip_min_x (size_in_pixels.1 : ℤ)
  let clip_max_y := clampI clip_max_y clip_min_y (size_in_pixels.2 : ℤ)
  (clip_min_x, clip_min_y, clip_max_x, clip_max_y)

/-- `set_clip_rect`: the `(x, y, width, height)` passed to `gl.scissor`,
including the top-left → bottom-left vertical flip. -/
def set_clip_rect (size_in_pixels : Nat × Nat) (pixels_per_point : ℚ)
    (clip_rect : Rect) : ℤ × ℤ × ℤ × ℤ :=
  let b := clamped_clip_bounds size_in_pixels pixels_per_point clip_rect
  (b.1, (size_in_pixels.2 : ℤ) - b.2.2.2, b.2.2.1 - b.1, b.2.2.2 - b.2.1)

/-! ## The painter -/

/-- `ShaderVersion` (shader_version.rs, a collaborator of the painter):
the painter only inspects which variant was probed. -/
inductive ShaderVersion where
  | gl120
  | gl140
  | es100
  | es300
deriving DecidableEq, Repr

/-- The painter's own fields (painter.rs lines 45–70).  `post_process` holds
the framebuffer handle of the offscreen sRGB correction pass when one was
installed.  `cfg_wasm` models the compile-time `cfg!(target_arch = "wasm32")`
flag.  Shader/VAO internals are collaborators and are kept as opaque handles. -/
structure Painter where
  max_texture_side : Nat
  program : Nat
  is_webgl_1 : Bool
  is_embedded : Bool
  srgb_support : Bool
  post_process : Option Nat
  vbo : Nat
  element_array_buffer : Nat
  textures : List (TextureId × Nat)
  next_native_tex_id : Nat
  textures_to_destroy : List Nat
  destroyed : Bool
  cfg_wasm : Bool
deriving DecidableEq, Repr

/-- The capability-dependent part of `Painter::new` (painter.rs lines
121–148 and 221–238): which variant installs a post process, and the derived
`is_webgl_1` / `is_embedded` flags.  Shader compilation and buffer creation
are external collaborators; `pp_fbo` stands for the framebuffer handle the
post-process pass would create. -/
def painter_new (max_texture_side : Nat) (shader_version : ShaderVersion)
    (srgb_support : Bool) (pp_fb_extent : Option (ℤ × ℤ)) (cfg_wasm : Bool)
    (program vbo element_array_buffer pp_fbo : Nat) : Painter :=
  let post_process : Option Nat :=
    match shader_version, srgb_support with
    | ShaderVersion.es300, _ => pp_fb_extent.map fun _ => pp_fbo
    | ShaderVersion.es100, true => pp_fb_extent.map fun _ => pp_fbo
    | _, _ => none
  { max_texture_side
    program
    is_webgl_1 := shader_version = ShaderVersion.es100
    is_embedded := shader_version = ShaderVersion.es100 ∨ shader_version = ShaderVersion.es300
    srgb_support
    post_process
    vbo
    element_array_buffer
    textures := []
    next_native_tex_id := 2 ^ 32
    textures_to_destroy := []
    destroyed := false
    cfg_wasm }

/-- The color-space pipeline mode of §4.2 of the specification, derived from
the painter's construction-time fields: an installed post process means the
corrected mode; otherwise an embedded (ES/WebGL) target without a post
process is the uncorrected fallback, and a desktop target is native. -/
inductive ColorPipelineMode where
  | native
  | corrected
  | uncorrected
deriving DecidableEq, Repr

def painter_mode (p : Painter) : ColorPipelineMode :=
  if p.post_process.isSome then ColorPipelineMode.corrected
  else if p.is_embedded then ColorPipelineMode.uncorrected
  else ColorPipelineMode.native

/-- The gamma exponent `set_texture` passes to `FontImage::srgba_pixels`
(painter.rs lines 524–528): `1.0 / 2.2` (= 5/11 exactly) when the target is
embedded and no post process is installed, `1.0` otherwise. -/
def font_gamma (p : Painter) : ℚ :=
  if p.is_embedded ∧ p.post_process = none then 5 / 11 else 1

/-- `Painter::texture` (resolve a `TextureId` to a device handle). -/
def Painter.texture (p : Painter) (texture_id : TextureId) : Option Nat :=
  lookupA texture_id p.textures

/-! ## Events

Observable occurrences of a run.  `GlEvent`s are device calls; the three
marker events record when the painter applies a texture update, starts
drawing a primitive, and applies a texture free — the temporal claims of the
specification are about their relative order.  Markers are emitted by the
painter itself; a user callback can only issue device calls. -/

inductive GlEvent where
  | createTexture (t : Nat)
  | texImage2d (internal_format w h : Nat)
  | texSubImage2d (src_format x y w h : Nat)
  | bufferData (target : Nat)
  | drawElements (count : Nat)
  | deleteTexture (t : Nat)
  | warn
deriving DecidableEq, Repr

inductive Event where
  | gl (e : GlEvent)
  | applyUpdate (id : TextureId)
  | drawPrimitive
  | applyFree (id : TextureId)
deriving DecidableEq, Repr

def Event.isUpdate : Event → Bool
  | Event.applyUpdate _ => true
  | _ => false

def Event.isDraw : Event → Bool
  | Event.drawPrimitive => true
  | _ => false

def Event.isFree : Event → Bool
  | Event.applyFree _ => true
  | _ => false

def Event.updateId : Event → Option TextureId
  | Event.applyUpdate id => some id
  | _ => none

def GlEvent.isDrawCall : GlEvent → Bool
  | GlEvent.drawElements _ => true
  | _ => false

def GlEvent.isBufferUpload : GlEvent → Bool
  | GlEvent.bufferData _ => true
  | _ => false

def GlEvent.isWarn : GlEvent → Bool
  | GlEvent.warn => true
  | _ => false

/-! ## Texture upload (`set_texture` / `upload_texture_srgb`, lines 492–628) -/

/-- `gl.tex_image_2d`: (re)allocate the bound texture's storage and store the
full texel data. -/
def tex_image_2d (g : GlState) (w h : Nat) (data : List Texel) : GlState :=
  match g.boundTexture with
  | some t => { g with textureContents := insertA t ⟨w, h, data⟩ g.textureContents }
  | none => g

/-- Overwrite the `w × h` sub-region at `(x, y)` of a `bigW`-wide texel list
with `patch` (row-major, patch stride `w`). -/
def patch_data (bigW : Nat) (old : List Texel) (x y w h : Nat)
    (patch : List Texel) : List Texel :=
  (List.range old.length).map fun i =>
    let r := i / bigW
    let c := i % bigW
    if x ≤ c ∧ c < x + w ∧ y ≤ r ∧ r < y + h then
      patch.getD ((r - y) * w + (c - x)) (Texel.color (0, 0, 0, 0))
    else old.getD i (Texel.color (0, 0, 0, 0))

/-- `gl.tex_sub_image_2d`: patch the bound texture's existing storage.  A
region exceeding the stored size is a GL error and writes nothing. -/
def tex_sub_image_2d (g : GlState) (x y w h : Nat) (data : List Texel) : GlState :=
  match g.boundTexture with
  | some t =>
      match lookupA t g.textureContents with
      | some c =>
          if x + w ≤ c.w ∧ y + h ≤ c.h then
            { g with textureContents :=
                insertA t ⟨c.w, c.h, patch_data c.w c.data x y w h data⟩ g.textureContents }
          else g
      | none => g
  | none => g

/-- The `(internal_format, src_format)` pair chosen by `upload_texture_srgb`
(lines 585–594). -/
def upload_formats (p : Painter) : Nat × Nat :=
  if p.is_webgl_1 then
    if p.srgb_support then (GL_SRGB_ALPHA, GL_SRGB_ALPHA) else (GL_RGBA, GL_RGBA)
  else (GL_SRGB8_ALPHA8, GL_RGBA)

/-- `Painter::upload_texture_srgb` (lines 539–628).  The three `assert!`s
are modelled by the nested conditionals (in source order); a byte count is
four times a texel count. -/
def upload_texture_srgb (p : Painter) (g : GlState) (pos : Option (Nat × Nat))
    (size : Nat × Nat) (_filter : TextureFilter) (data : List Texel) :
    Option (GlState × List GlEvent) :=
  if 4 * data.length = size.1 * size.2 * 4 then
    if 1 ≤ size.1 ∧ 1 ≤ size.2 then
      if size.1 ≤ p.max_texture_side ∧ size.2 ≤ p.max_texture_side then
        let fmts := upload_formats p
        match pos with
        | some xy =>
            some (tex_sub_image_2d g xy.1 xy.2 size.1 size.2 data,
              [GlEvent.texSubImage2d fmts.2 xy.1 xy.2 size.1 size.2])
        | none =>
            some (tex_image_2d g size.1 size.2 data,
              [GlEvent.texImage2d fmts.1 size.1 size.2])
      else none
    else none
  else none

/-- The device texture used for `tex_id`:
`self.textures.entry(tex_id).or_insert_with(|| gl.create_texture())`. -/
def entry_tex (p : Painter) (g : GlState) (tex_id : TextureId) : Nat :=
  match lookupA tex_id p.textures with
  | some t => t
  | none => g.nextTex

def entry_painter (p : Painter) (g : GlState) (tex_id : TextureId) : Painter :=
  match lookupA tex_id p.textures with
  | some _ => p
  | none => { p with textures := insertA tex_id g.nextTex p.textures }

def entry_gl (p : Painter) (g : GlState) (tex_id : TextureId) : GlState :=
  match lookupA tex_id p.textures with
  | some _ => g
  | none => { g with nextTex := g.nextTex + 1 }

def entry_events (p : Painter) (g : GlState) (tex_id : TextureId) : List GlEvent :=
  match lookupA tex_id p.textures with
  | some _ => []
  | none => [GlEvent.createTexture g.nextTex]

/-- Body of `Painter::set_texture` after `assert_not_destroyed` (lines
497–537): look up or create the device texture, bind it, check the
size/texel-count assertion, and upload.  Font coverage is converted with the
construction-determined gamma. -/
def set_texture_core (p : Painter) (g : GlState) (tex_id : TextureId)
    (delta : ImageDelta) : Option (Painter × GlState × List GlEvent) :=
  let t := entry_tex p g tex_id
  let p1 := entry_painter p g tex_id
  let g1 := { entry_gl p g tex_id with boundTexture := some t }
  let evs := entry_events p g tex_id
  match delta.image with
  | ImageData.color im =>
      if im.width * im.height = im.pixels.length then
        (upload_texture_srgb p1 g1 delta.pos im.size delta.filter
            (im.pixels.map Texel.color)).map
          fun r => (p1, r.1, evs ++ r.2)
      else none
  | ImageData.font im =>
      if im.width * im.height = im.pixels.length then
        (upload_texture_srgb p1 g1 delta.pos im.size delta.filter
            (im.pixels.map (Texel.font (font_gamma p1)))).map
          fun r => (p1, r.1, evs ++ r.2)
      else none

/-- `Painter::set_texture`.  `none` models a panic (`assert_not_destroyed`
or one of the image assertions). -/
def set_texture (p : Painter) (g : GlState) (tex_id : TextureId)
    (delta : ImageDelta) : Option (Painter × GlState × List Event) :=
  if p.destroyed then none
  else
    (set_texture_core p g tex_id delta).map
      fun r => (r.1, r.2.1, Event.applyUpdate tex_id :: r.2.2.map Event.gl)

/-- Body of `Painter::free_texture` (lines 630–634): remove the map entry
and delete the device texture if one was present.  Note: no
`assert_not_destroyed` in the source. -/
def free_texture_core (p : Painter) (g : GlState) (tex_id : TextureId) :
    Painter × GlState × List GlEvent :=
  match lookupA tex_id p.textures with
  | some old =>
      ({ p with textures := removeA tex_id p.textures },
       { g with textureContents := removeA old g.textureContents },
       [GlEvent.deleteTexture old])
  | none => (p, g, [])

def free_texture_run (p : Painter) (g : GlState) (tex_id : TextureId) :
    Painter × GlState × List Event :=
  let r := free_texture_core p g tex_id
  (r.1, r.2.1, Event.applyFree tex_id :: r.2.2.map Event.gl)

/-- `Painter::free_texture`: total — the source performs no destroyed-check
and cannot panic, hence always `some`. -/
def free_texture (p : Painter) (g : GlState) (tex_id : TextureId) :
    Option (Painter × GlState × List Event) :=
  some (free_texture_run p g tex_id)

/-- `Painter::register_native_texture` (lines 646–653). -/
def register_native_texture (p : Painter) (native : Nat) :
    Option (TextureId × Painter) :=
  if p.destroyed then none
  else
    let id := TextureId.user p.next_native_tex_id
    some (id,
      { p with
          next_native_tex_id := p.next_native_tex_id + 1
          textures := insertA id native p.textures })

/-- `Painter::replace_native_texture` (lines 655–660): total — no
destroyed-check in the source.  A displaced old handle goes to the
pending-deletion list. -/
def replace_native_texture (p : Painter) (id : TextureId) (replacing : Nat) :
    Option Painter :=
  some
    (match lookupA id p.textures with
     | some old =>
        { p with
            textures := insertA id replacing p.textures
            textures_to_destroy := p.textures_to_destroy ++ [old] }
     | none => { p with textures := insertA id replacing p.textures })

/-- `Painter::destroy_gl` + `Painter::destroy` (lines 662–686): on first
call, delete every owned texture and drain the pending-deletion list
(program/buffer deletion has no modelled state); idempotent. -/
def destroy (p : Painter) (g : GlState) : Painter × GlState × List GlEvent :=
  if p.destroyed then (p, g, [])
  else
    let handles := p.textures.map Prod.snd ++ p.textures_to_destroy
    ({ p with destroyed := true },
     { g with textureContents := handles.foldl (fun m t => removeA t m) g.textureContents },
     handles.map GlEvent.deleteTexture)

/-! ## Primitives and the frame draw loop -/

/-- `egui::epaint::Vertex`. -/
structure Vertex where
  pos : ℚ × ℚ
  uv : ℚ × ℚ
  color : Color32
deriving DecidableEq, Repr

/-- `egui::epaint::Mesh`. -/
structure Mesh where
  indices : List Nat
  vertices : List Vertex
  texture_id : TextureId
deriving DecidableEq, Repr

/-- `egui::PaintCallbackInfo` as constructed in `paint_primitives`. -/
structure PaintCallbackInfo where
  viewport : Rect
  clip_rect : Rect
  pixels_per_point : ℚ
  screen_size_px : Nat × Nat

/-- The opaque callback payload: the downcast to `egui_glow::CallbackFn`
either succeeds — yielding a body that may read the painter and mutate
arbitrary device state, issuing device calls — or fails (`unsupported`),
which the source answers with a warning. -/
inductive CallbackPayload where
  | supported (f : PaintCallbackInfo → Painter → GlState → GlState × List GlEvent)
  | unsupported

structure PaintCallback where
  rect : Rect
  callback : CallbackPayload

inductive Primitive where
  | mesh (m : Mesh)
  | callback (cb : PaintCallback)

structure ClippedPrimitive where
  clip_rect : Rect
  primitive : Primitive

/-- `Painter::prepare_painting` (lines 264–313): establish the baseline
device state.  (`debug`/error-check calls have no modelled effect; the
`FRAMEBUFFER_SRGB` enable is skipped on wasm, mirroring the `cfg!`.) -/
def prepare_painting (p : Painter) (screen_size_px : Nat × Nat)
    (pixels_per_point : ℚ) (g : GlState) : GlState :=
  { g with
      scissorTest := true
      cullFace := false
      depthTest := false
      colorMask := (true, true, true, true)
      blendEnabled := true
      blendEquation := (GL_FUNC_ADD, GL_FUNC_ADD)
      blendFunc := (GL_ONE, GL_ONE_MINUS_SRC_ALPHA, GL_ONE_MINUS_DST_ALPHA, GL_ONE)
      framebufferSrgb := if p.cfg_wasm then g.framebufferSrgb else true
      viewport := (0, 0, (screen_size_px.1 : ℤ), (screen_size_px.2 : ℤ))
      program := some p.program
      uScreenSize := some ((screen_size_px.1 : ℚ) / pixels_per_point,
                           (screen_size_px.2 : ℚ) / pixels_per_point)
      uSampler := some 0
      activeTexture := GL_TEXTURE0
      vaoBound := true
      elementArrayBuffer := some p.element_array_buffer }

/-- The baseline device state `prepare_painting` establishes (the
specification's Frame Draw Loop step 1, device-state portion). -/
def is_baseline (p : Painter) (screen_size_px : Nat × Nat)
    (pixels_per_point : ℚ) (g : GlState) : Prop :=
  g.scissorTest = true ∧ g.cullFace = false ∧ g.depthTest = false ∧
  g.colorMask = (true, true, true, true) ∧ g.blendEnabled = true ∧
  g.blendEquation = (GL_FUNC_ADD, GL_FUNC_ADD) ∧
  g.blendFunc = (GL_ONE, GL_ONE_MINUS_SRC_ALPHA, GL_ONE_MINUS_DST_ALPHA, GL_ONE) ∧
  g.viewport = (0, 0, (screen_size_px.1 : ℤ), (screen_size_px.2 : ℤ)) ∧
  g.program = some p.program ∧
  g.uScreenSize = some ((screen_size_px.1 : ℚ) / pixels_per_point,
                        (screen_size_px.2 : ℚ) / pixels_per_point) ∧
  g.uSampler = some 0 ∧ g.activeTexture = GL_TEXTURE0 ∧
  g.vaoBound = true ∧ g.elementArrayBuffer = some p.element_array_buffer

/-- `Painter::paint_mesh` (lines 452–488): resolve the texture; if found,
upload vertex and index data, bind the texture and issue one indexed draw;
if missing, warn and skip.  (`debug_assert!(mesh.is_valid())` is a
debug-build-only check and is not part of release semantics.) -/
def paint_mesh (p : Painter) (m : Mesh) (g : GlState) : GlState × List GlEvent :=
  match p.texture m.texture_id with
  | some t =>
      ({ g with
          arrayBuffer := some p.vbo
          elementArrayBuffer := some p.element_array_buffer
          boundTexture := some t },
       [GlEvent.bufferData GL_ARRAY_BUFFER,
        GlEvent.bufferData GL_ELEMENT_ARRAY_BUFFER,
        GlEvent.drawElements m.indices.length])
  | none => (g, [GlEvent.warn])

/-- Apply the translated scissor rectangle (the `gl.scissor` call of
`set_clip_rect`). -/
def apply_clip_rect (screen : Nat × Nat) (ppp : ℚ) (r : Rect) (g : GlState) :
    GlState :=
  { g with scissor := set_clip_rect screen ppp r }

/-- One iteration of the per-primitive loop of `paint_primitives` (lines
377–436): set the scissor, then dispatch.  A positive-rect callback gets the
sub-viewport, is invoked, and is followed by the post-process re-bind (in
corrected mode) and a full `prepare_painting`. -/
def process_prim_core (p : Painter) (screen : Nat × Nat) (ppp : ℚ)
    (cp : ClippedPrimitive) (g : GlState) : GlState × List GlEvent :=
  let g := apply_clip_rect screen ppp cp.clip_rect g
  match cp.primitive with
  | Primitive.mesh m => paint_mesh p m g
  | Primitive.callback cb =>
      if cb.rect.is_positive then
        let rect_min_x := round_away (ppp * cb.rect.min.x)
        let rect_min_y := round_away (ppp * cb.rect.min.y)
        let rect_max_x := round_away (ppp * cb.rect.max.x)
        let rect_max_y := round_away (ppp * cb.rect.max.y)
        let g := { g with viewport :=
          (rect_min_x, (screen.2 : ℤ) - rect_max_y,
           rect_max_x - rect_min_x, rect_max_y - rect_min_y) }
        let info : PaintCallbackInfo := ⟨cb.rect, cp.clip_rect, ppp, screen⟩
        let r := match cb.callback with
          | CallbackPayload.supported f => f info p g
          | CallbackPayload.unsupported => (g, [GlEvent.warn])
        let g := match p.post_process with
          | some fbo => { r.1 with boundFramebuffer := some fbo }
          | none => r.1
        (prepare_painting p screen ppp g, r.2)
      else (g, [])

def process_prim (p : Painter) (screen : Nat × Nat) (ppp : ℚ)
    (cp : ClippedPrimitive) (g : GlState) : GlState × List Event :=
  let r := process_prim_core p screen ppp cp g
  (r.1, Event.drawPrimitive :: r.2.map Event.gl)

def run_prims (p : Painter) (screen : Nat × Nat) (ppp : ℚ) :
    List ClippedPrimitive → GlState → GlState × List Event
  | [], g => (g, [])
  | cp :: rest, g =>
      let r1 := process_prim p screen ppp cp g
      let r2 := run_prims p screen ppp rest r1.1
      (r2.1, r1.2 ++ r2.2)

/-- `Painter::paint_primitives` (lines 355–450): assert liveness; in
corrected mode begin/bind the post process and clear it; establish baseline
state; run the primitive loop; unbind and (in corrected mode) resolve the
post process to the display target.  `PostProcess` internals are a
collaborator: `bind` binds its framebuffer, `end` resolves and re-binds the
display framebuffer, per the §6 interface contract. -/
def paint_primitives (p : Painter) (screen : Nat × Nat) (ppp : ℚ)
    (prims : List ClippedPrimitive) (g : GlState) :
    Option (GlState × List Event) :=
  if p.destroyed then none
  else
    let g := match p.post_process with
      | some fbo =>
          { g with
              boundFramebuffer := some fbo
              scissorTest := false
              viewport := (0, 0, (screen.1 : ℤ), (screen.2 : ℤ)) }
      | none => g
    let g := prepare_painting p screen ppp g
    let r := run_prims p screen ppp prims g
    let g := { r.1 with vaoBound := false, elementArrayBuffer := none }
    let g := match p.post_process with
      | some _ => { g with boundFramebuffer := none }
      | none => g
    some ({ g with scissorTest := false }, r.2)

/-- The `for (id, image_delta) in &textures_delta.set` loop of
`paint_and_update_textures`. -/
def apply_updates : List (TextureId × ImageDelta) → Painter → GlState →
    Option (Painter × GlState × List Event)
  | [], p, g => some (p, g, [])
  | (id, d) :: rest, p, g =>
      match set_texture p g id d with
      | none => none
      | some r =>
          match apply_updates rest r.1 r.2.1 with
          | none => none
          | some r2 => some (r2.1, r2.2.1, r.2.2 ++ r2.2.2)

/-- The `for &id in &textures_delta.free` loop. -/
def apply_frees : List TextureId → Painter → GlState →
    Painter × GlState × List Event
  | [], p, g => (p, g, [])
  | id :: rest, p, g =>
      let r := free_texture_run p g id
      let r2 := apply_frees rest r.1 r.2.1
      (r2.1, r2.2.1, r.2.2 ++ r2.2.2)

/-- `Painter::paint_and_update_textures` (lines 316–333): apply the delta's
updates, paint all primitives, then apply the delta's frees. -/
def paint_and_update_textures (p : Painter) (g : GlState) (screen : Nat × Nat)
    (ppp : ℚ) (prims : List ClippedPrimitive) (delta : TexturesDelta) :
    Option (Painter × GlState × List Event) :=
  match apply_updates delta.set p g with
  | none => none
  | some r1 =>
      match paint_primitives r1.1 screen ppp prims r1.2.1 with
      | none => none
      | some r2 =>
          let r3 := apply_frees delta.free r1.1 r2.1
          some (r3.1, r3.2.1, r1.2.2 ++ r2.2 ++ r3.2.2)

/-! ## Spec-side constructs used to state the claims -/

/-- The pixel contents currently stored on the device for a `TextureId`. -/
def contents_at (p : Painter) (g : GlState) (id : TextureId) : Option TexContents :=
  (p.texture id).bind fun t => lookupA t g.textureContents

/-- Spec-side: overwrite the `w × h` region at `(x, y)` of a `bigW`-wide
row-major pixel list with `patch` (same index arithmetic as the device's
`patch_data`, at any pixel type). -/
def patch_pixels {α : Type} (d : α) (bigW : Nat) (old : List α) (x y w h : Nat)
    (patch : List α) : List α :=
  (List.range old.length).map fun i =>
    let r := i / bigW
    let c := i % bigW
    if x ≤ c ∧ c < x + w ∧ y ≤ r ∧ r < y + h then
      patch.getD ((r - y) * w + (c - x)) d
    else old.getD i d

/-- Spec-side: the color image obtained by overwriting the `patch.size`
region of `img` at offset `(x, y)` with `patch` (the "patched image" of the
round-trip property of §8). -/
def patched_image (img patch : ColorImage) (x y : Nat) : ColorImage :=
  { size := img.size
    pixels := patch_pixels (0, 0, 0, 0) img.width img.pixels x y patch.width
      patch.height patch.pixels }

/-- Spec-side: the font-coverage image obtained by overwriting the
`patch.size` region of `img` at offset `(x, y)` with `patch`. -/
def patched_font_image (img patch : FontImage) (x y : Nat) : FontImage :=
  { size := img.size
    pixels := patch_pixels 0 img.width img.pixels x y patch.width
      patch.height patch.pixels }

/-- Spec-side: the patched image for a full image and patch of either kind
(`none` for a kind mismatch, which the Image Update data model never
produces). -/
def patched_image_data (full patch : ImageData) (x y : Nat) : Option ImageData :=
  match full, patch with
  | ImageData.color a, ImageData.color b =>
      some (ImageData.color (patched_image a b x y))
  | ImageData.font a, ImageData.font b =>
      some (ImageData.font (patched_font_image a b x y))
  | _, _ => none

/-- The texel list `set_texture` uploads for an image on painter `p` (font
coverage is converted with the painter's construction-determined gamma). -/
def image_texels (p : Painter) : ImageData → List Texel
  | ImageData.color im => im.pixels.map Texel.color
  | ImageData.font im => im.pixels.map (Texel.font (font_gamma p))

/-- The preconditions of a texture update (§3 Image Update invariant): texel
count equals width × height, and both dimensions are ≥ 1 and at most the
device's maximum texture side. -/
def delta_valid (p : Painter) (delta : ImageDelta) : Prop :=
  match delta.image with
  | ImageData.color im =>
      im.pixels.length = im.width * im.height ∧ 1 ≤ im.width ∧ 1 ≤ im.height ∧
      im.width ≤ p.max_texture_side ∧ im.height ≤ p.max_texture_side
  | ImageData.font im =>
      im.pixels.length = im.width * im.height ∧ 1 ≤ im.width ∧ 1 ≤ im.height ∧
      im.width ≤ p.max_texture_side ∧ im.height ≤ p.max_texture_side

instance (p : Painter) (delta : ImageDelta) : Decidable (delta_valid p delta) := by
  unfold delta_valid
  match delta.image with
  | ImageData.color im => infer_instance
  | ImageData.font im => infer_instance

/-! ## Concrete sample data (used by the witness theorems) -/

def init_gl : GlState :=
  { scissorTest := false
    cullFace := false
    depthTest := false
    colorMask := (false, false, false, false)
    blendEnabled := false
    blendEquation := (0, 0)
    blendFunc := (0, 0, 0, 0)
    framebufferSrgb := false
    viewport := (0, 0, 0, 0)
    scissor := (0, 0, 0, 0)
    program := none
    uScreenSize := none
    uSampler := none
    activeTexture := 0
    vaoBound := false
    arrayBuffer := none
    elementArrayBuffer := none
    boundTexture := none
    boundFramebuffer := none
    textureContents := []
    nextTex := 1 }

/-- A desktop-GL painter (native mode). -/
def sample_painter : Painter :=
  painter_new 4096 ShaderVersion.gl140 true none false 1 2 3 0

def sample_tid : TextureId := TextureId.managed 0

def sample_img : ColorImage :=
  { size := (2, 2), pixels := [(1, 1, 1, 1), (2, 2, 2, 2), (3, 3, 3, 3), (4, 4, 4, 4)] }

def sample_patch : ColorImage := { size := (1, 1), pixels := [(9, 9, 9, 9)] }

def sample_font_img : FontImage := { size := (2, 2), pixels := [0, 1, 0, 1] }

def sample_font_patch : FontImage := { size := (1, 1), pixels := [1] }

def sample_color_delta : ImageDelta :=
  { image := ImageData.color sample_img, pos := none, filter := TextureFilter.linear }

def sample_delta : TexturesDelta :=
  { set := [(sample_tid, sample_color_delta)]
    free := [sample_tid] }

def sample_mesh : Mesh :=
  { indices := [0, 1, 2]
    vertices :=
      [⟨(0, 0), (0, 0), (255, 255, 255, 255)⟩,
       ⟨(1, 0), (1, 0), (255, 255, 255, 255)⟩,
       ⟨(0, 1), (0, 1), (255, 255, 255, 255)⟩]
    texture_id := sample_tid }

def sample_rect : Rect := ⟨⟨0, 0⟩, ⟨4, 4⟩⟩

def sample_mesh_prim : ClippedPrimitive :=
  ⟨sample_rect, Primitive.mesh sample_mesh⟩

def sample_callback_prim : ClippedPrimitive :=
  ⟨sample_rect,
   Primitive.callback
     ⟨⟨⟨1, 1⟩, ⟨3, 3⟩⟩,
      CallbackPayload.supported fun _ _ g =>
        ({ g with depthTest := true, program := none }, [GlEvent.drawElements 3])⟩⟩

/-- A painter that registered one external texture (handle 7) and was then
destroyed, together with the device state after teardown. -/
def cex_destroyed : Painter × GlState × List GlEvent :=
  destroy (((register_native_texture sample_painter 7).map Prod.snd).getD sample_painter)
    init_gl

def cex_id : TextureId := TextureId.user (2 ^ 32)

/-- A WebGL2-style painter with a post process installed (corrected mode). -/
def sample_corrected : Painter :=
  painter_new 4096 ShaderVersion.es300 true (some (8, 8)) false 1 2 3 5

/-- Painter after registering external handle 7 on `sample_painter`. -/
def c8_p1 : Painter :=
  { sample_painter with
      next_native_tex_id := 2 ^ 32 + 1
      textures := [(TextureId.user (2 ^ 32), 7)] }

/-- Painter after replacing that handle with 9. -/
def c8_p2 : Painter :=
  { c8_p1 with
      textures := [(TextureId.user (2 ^ 32), 9)]
      textures_to_destroy := [7] }

/-- Expected device state after the sample frame (update a 2×2 texture,
paint no primitives, free the texture). -/
def c3_g : GlState :=
  { init_gl with
      colorMask := (true, true, true, true)
      blendEnabled := true
      blendEquation := (GL_FUNC_ADD, GL_FUNC_ADD)
      blendFunc := (GL_ONE, GL_ONE_MINUS_SRC_ALPHA, GL_ONE_MINUS_DST_ALPHA, GL_ONE)
      framebufferSrgb := true
      viewport := (0, 0, 8, 8)
      program := some 1
      uScreenSize := some (((8 : Nat) : ℚ) / 1, ((8 : Nat) : ℚ) / 1)
      uSampler := some 0
      activeTexture := GL_TEXTURE0
      vaoBound := false
      elementArrayBuffer := none
      boundTexture := some 1
      textureContents := []
      nextTex := 2 }

/-- Expected event trace of the sample frame. -/
def c3_e : List Event :=
  [Event.applyUpdate sample_tid, Event.gl (GlEvent.createTexture 1),
   Event.gl (GlEvent.texImage2d GL_SRGB8_ALPHA8 2 2),
   Event.applyFree sample_tid, Event.gl (GlEvent.deleteTexture 1)]

/-! ## Helper lemmas -/

theorem lookupA_insertA_self {κ α : Type} [DecidableEq κ] (k : κ) (v : α)
    (l : List (κ × α)) : lookupA k (insertA k v l) = some v := by
  induction l with
  | nil => simp [insertA, lookupA]
  | cons hd t ih =>
    obtain ⟨k', v'⟩ := hd
    by_cases hk : k = k'
    · simp [insertA, hk, lookupA]
    · simp [insertA, hk, lookupA, ih]

theorem getD_map {α β : Type} (f : α → β) (l : List α) (i : Nat) (d : α) :
    (l.map f).getD i (f d) = f (l.getD i d) := by
  induction l generalizing i with
  | nil => rfl
  | cons a t ih =>
    cases i with
    | zero => rfl
    | succ j => exact ih j

theorem take_succ_get {α : Type} (l : List α) (n : Nat) (hn : n < l.length) :
    l.take (n + 1) = l.take n ++ [l.get ⟨n, hn⟩] := by
  induction l generalizing n with
  | nil => exact absurd hn (by simp)
  | cons a t ih =>
    cases n with
    | zero => rfl
    | succ m =>
      have hm : m < t.length := by simpa using hn
      simp only [List.take_succ_cons, List.get_cons_succ, List.cons_append]
      rw [ih m hm]

/-- In `a ++ b`, an index holding an element with property `P` lies in `a`
when `b` has no such element. -/
theorem index_in_left {α : Type} {P : α → Bool} {a b : List α} {i : Nat}
    (hi : i < (a ++ b).length) (hP : P ((a ++ b).get ⟨i, hi⟩) = true)
    (hb : ∀ e ∈ b, P e = false) : i < a.length := by
  by_contra hcon
  push_neg at hcon
  have hlt : i - a.length < b.length := by
    have := hi
    simp only [List.length_append] at this
    omega
  have hget : (a ++ b).get ⟨i, hi⟩ = b.get ⟨i - a.length, hlt⟩ := by
    rw [List.get_append_right]
    omega
  rw [hget, hb _ (b.get_mem _ _)] at hP
  exact Bool.false_ne_true hP

/-- In `a ++ b`, an index holding an element with property `P` lies in `b`
when `a` has no such element. -/
theorem index_in_right {α : Type} {P : α → Bool} {a b : List α} {i : Nat}
    (hi : i < (a ++ b).length) (hP : P ((a ++ b).get ⟨i, hi⟩) = true)
    (ha : ∀ e ∈ a, P e = false) : a.length ≤ i := by
  by_contra hcon
  push_neg at hcon
  have hget : (a ++ b).get ⟨i, hi⟩ = a.get ⟨i, hcon⟩ := by
    rw [List.get_append]
  rw [hget, ha _ (a.get_mem _ _)] at hP
  exact Bool.false_ne_true hP

/-! ## Theorems -/

/-- C2: the clip → scissor translation scales by the scale factor, rounds
each coordinate to nearest, clamps the min corner into `[0, F]` and the max
corner into `[min, F]`, and flips the vertical axis via
`y0 = framebufferHeight − clampedMaxY`; the resulting scissor rect is fully
contained in `[0, F]` on both axes with non-negative width and height, and
the 800×600 / scale 1 / clip (10,10)–(50,50) scenario yields
`(x0, y0, w, h) = (10, 550, 40, 40)`. -/
theorem set_clip_rect_spec (size : Nat × Nat) (ppp : ℚ) (r : Rect) :
    (0 ≤ (set_clip_rect size ppp r).1 ∧
     (set_clip_rect size ppp r).1 + (set_clip_rect size ppp r).2.2.1 ≤ (size.1 : ℤ) ∧
     0 ≤ (set_clip_rect size ppp r).2.1 ∧
     (set_clip_rect size ppp r).2.1 + (set_clip_rect size ppp r).2.2.2 ≤ (size.2 : ℤ) ∧
     0 ≤ (set_clip_rect size ppp r).2.2.1 ∧
     0 ≤ (set_clip_rect size ppp r).2.2.2) ∧
    (set_clip_rect size ppp r).2.1 =
      (size.2 : ℤ) - (clamped_clip_bounds size ppp r).2.2.2 ∧
    set_clip_rect (800, 600) 1 ⟨⟨10, 10⟩, ⟨50, 50⟩⟩ = (10, 550, 40, 40) := by
  refine ⟨?_, rfl, ?_⟩
  · have h1 : (0 : ℤ) ≤ (size.1 : ℤ) := Int.ofNat_nonneg _
    have h2 : (0 : ℤ) ≤ (size.2 : ℤ) := Int.ofNat_nonneg _
    simp only [set_clip_rect, clamped_clip_bounds, clampI]
    omega
  · norm_num [set_clip_rect, clamped_clip_bounds, clampI, round_away, min_def, max_def]

/-- C4: dispatching a mesh whose `TextureId` is absent from the resource
table issues zero draw calls and zero buffer uploads, emits exactly one
warning, raises no fatal error (the function is total), and leaves the
device state untouched so the frame continues with the remaining
primitives. -/
theorem paint_mesh_missing_texture (p : Painter) (g : GlState) (m : Mesh)
    (hmiss : p.texture m.texture_id = none) :
    paint_mesh p m g = (g, [GlEvent.warn]) ∧
    (paint_mesh p m g).2.countP GlEvent.isDrawCall = 0 ∧
    (paint_mesh p m g).2.countP GlEvent.isBufferUpload = 0 ∧
    (paint_mesh p m g).2.countP GlEvent.isWarn = 1 := by
  have h : paint_mesh p m g = (g, [GlEvent.warn]) := by
    unfold paint_mesh
    rw [hmiss]
  refine ⟨h, ?_, ?_, ?_⟩ <;> rw [h] <;> rfl

/-- C4 witness: a mesh over an empty resource table. -/
theorem paint_mesh_missing_texture_witness :
    sample_painter.texture sample_mesh.texture_id = none ∧
    paint_mesh sample_painter sample_mesh init_gl = (init_gl, [GlEvent.warn]) ∧
    (paint_mesh sample_painter sample_mesh init_gl).2.countP GlEvent.isWarn = 1 := by
  have hmiss : sample_painter.texture sample_mesh.texture_id = none := by decide
  have h := paint_mesh_missing_texture sample_painter init_gl sample_mesh hmiss
  exact ⟨hmiss, h.1, h.2.2.2⟩

/-- C7: the brightening gamma exponent (`1/2.2 = 5/11`) is passed to the
font-coverage conversion exactly in the uncorrected fallback mode
(embedded target, no post process); in native and corrected modes the
exponent is `1`, so text edges are never double-corrected. -/
theorem font_gamma_iff_uncorrected (max_side : Nat) (sv : ShaderVersion)
    (srgb : Bool) (ext : Option (ℤ × ℤ)) (wasm : Bool)
    (prog vbo eab fbo : Nat) :
    (font_gamma (painter_new max_side sv srgb ext wasm prog vbo eab fbo) = 5 / 11 ↔
      painter_mode (painter_new max_side sv srgb ext wasm prog vbo eab fbo) =
        ColorPipelineMode.uncorrected) ∧
    ((painter_mode (painter_new max_side sv srgb ext wasm prog vbo eab fbo) =
        ColorPipelineMode.native ∨
      painter_mode (painter_new max_side sv srgb ext wasm prog vbo eab fbo) =
        ColorPipelineMode.corrected) →
      font_gamma (painter_new max_side sv srgb ext wasm prog vbo eab fbo) = 1) := by
  have hne : (5 : ℚ) / 11 ≠ 1 := by norm_num
  have hne2 : (1 : ℚ) ≠ 5 / 11 := by norm_num
  cases sv <;> cases srgb <;> cases ext <;>
    simp_all [painter_new, font_gamma, painter_mode]

/-- C7 witness: an ES 1.00 target without sRGB support (uncorrected mode)
gets the brightening exponent; the corrected-mode painter does not. -/
theorem font_gamma_iff_uncorrected_witness :
    painter_mode (painter_new 4096 ShaderVersion.es100 false none false 1 2 3 0) =
      ColorPipelineMode.uncorrected ∧
    font_gamma (painter_new 4096 ShaderVersion.es100 false none false 1 2 3 0) =
      5 / 11 ∧
    painter_mode sample_corrected = ColorPipelineMode.corrected ∧
    font_gamma sample_corrected = 1 := by
  have h1 := font_gamma_iff_uncorrected 4096 ShaderVersion.es100 false none false 1 2 3 0
  have h2 := font_gamma_iff_uncorrected 4096 ShaderVersion.es300 true (some (8, 8))
    false 1 2 3 5
  have hm1 : painter_mode (painter_new 4096 ShaderVersion.es100 false none false 1 2 3 0) =
      ColorPipelineMode.uncorrected := by decide
  have hm2 : painter_mode sample_corrected = ColorPipelineMode.corrected := by decide
  exact ⟨hm1, h1.1.mpr hm1, hm2, h2.2 (Or.inr hm2)⟩

/-- C8: `register_native_texture` immediately followed by `texture`
(resolve) yields the registered handle; `replace_native_texture` on any id
with an existing association makes `texture` return the new handle at the
same, unchanged id. -/
theorem register_resolve_replace (p : Painter) (native h2 : Nat)
    (hd : p.destroyed = false) :
    (∀ id p1, register_native_texture p native = some (id, p1) →
       p1.texture id = some native) ∧
    (∀ (q : Painter) (id : TextureId), (q.texture id).isSome = true →
       ∀ q2, replace_native_texture q id h2 = some q2 →
         q2.texture id = some h2 ∧
         q2.next_native_tex_id = q.next_native_tex_id) := by
  constructor
  · intro id p1 hreg
    unfold register_native_texture at hreg
    rw [hd] at hreg
    simp only [Bool.false_eq_true, if_false, Option.some.injEq] at hreg
    obtain ⟨hid, hp1⟩ := Prod.mk.injEq .. ▸ hreg
    subst hid
    rw [← hp1]
    exact lookupA_insertA_self ..
  · intro q id hq q2 hrep
    unfold replace_native_texture at hrep
    simp only [Option.some.injEq] at hrep
    cases hl : lookupA id q.textures with
    | some old =>
        rw [hl] at hrep
        rw [← hrep]
        exact ⟨lookupA_insertA_self .., rfl⟩
    | none =>
        rw [hl] at hrep
        rw [← hrep]
        exact ⟨lookupA_insertA_self .., rfl⟩

/-- C8 witness: register handle 7, resolve it, replace it with 9. -/
theorem register_resolve_replace_witness :
    sample_painter.destroyed = false ∧
    register_native_texture sample_painter 7 = some (TextureId.user (2 ^ 32), c8_p1) ∧
    c8_p1.texture (TextureId.user (2 ^ 32)) = some 7 ∧
    replace_native_texture c8_p1 (TextureId.user (2 ^ 32)) 9 = some c8_p2 ∧
    c8_p2.texture (TextureId.user (2 ^ 32)) = some 9 := by
  have h := register_resolve_replace sample_painter 7 9 rfl
  have hreg : register_native_texture sample_painter 7 =
      some (TextureId.user (2 ^ 32), c8_p1) := by decide
  have hrep : replace_native_texture c8_p1 (TextureId.user (2 ^ 32)) 9 =
      some c8_p2 := by decide
  exact ⟨rfl, hreg, h.1 _ _ hreg, hrep,
    (h.2 c8_p1 (TextureId.user (2 ^ 32)) (by decide) c8_p2 hrep).1⟩

/-- C10: `replace_native_texture` on an id with no current association
inserts the handle (so resolve returns it), adds nothing to the
pending-deletion list, and raises no error (the source has no check and no
logging on this path). -/
theorem replace_unassociated (p : Painter) (id : TextureId) (h2 : Nat)
    (habs : p.texture id = none) :
    ∃ p', replace_native_texture p id h2 = some p' ∧
      p'.texture id = some h2 ∧
      p'.textures_to_destroy = p.textures_to_destroy := by
  unfold Painter.texture at habs
  unfold replace_native_texture
  rw [habs]
  exact ⟨_, rfl, lookupA_insertA_self .., rfl⟩

/-- C10 witness: replacing at an unassociated id on a fresh painter. -/
theorem replace_unassociated_witness :
    sample_painter.texture sample_tid = none ∧
    (∃ p', replace_native_texture sample_painter sample_tid 9 = some p' ∧
      p'.texture sample_tid = some 9 ∧
      p'.textures_to_destroy = sample_painter.textures_to_destroy) := by
  have habs : sample_painter.texture sample_tid = none := by decide
  exact ⟨habs, replace_unassociated sample_painter sample_tid 9 habs⟩

/-- C5 counterexample: after `destroy`, `free_texture` does **not** raise an
assertion — it executes its body against the torn-down context, removing the
map entry and issuing a (double) device delete of handle 7.  Likewise,
resolve still answers from the stale map.  This refutes the claim that
*every* operation after teardown fails loudly. -/
theorem free_after_destroy_cex :
    cex_destroyed.1.destroyed = true ∧
    free_texture cex_destroyed.1 cex_destroyed.2.1 cex_id =
      some (free_texture_run cex_destroyed.1 cex_destroyed.2.1 cex_id) ∧
    (free_texture_run cex_destroyed.1 cex_destroyed.2.1 cex_id).1.textures = [] ∧
    (free_texture_run cex_destroyed.1 cex_destroyed.2.1 cex_id).2.2 =
      [Event.applyFree cex_id, Event.gl (GlEvent.deleteTexture 7)] ∧
    cex_destroyed.1.texture cex_id = some 7 := by
  refine ⟨by decide, rfl, by decide, by decide, by decide⟩

/-- C5 (amended): after `destroy`, the operations that call
`assert_not_destroyed` — `set_texture`, `register_native_texture`, and
`paint_primitives` / `paint_and_update_textures` — fail loudly, while
`free_texture`, `replace_native_texture`, and `texture` (resolve) perform no
destroyed-check and proceed against the torn-down context. -/
theorem destroyed_ops_check (p : Painter) (g : GlState) (id : TextureId)
    (d : ImageDelta) (native h2 : Nat) (screen : Nat × Nat) (ppp : ℚ)
    (prims : List ClippedPrimitive) (delta : TexturesDelta)
    (hd : p.destroyed = true) :
    set_texture p g id d = none ∧
    register_native_texture p native = none ∧
    paint_primitives p screen ppp prims g = none ∧
    paint_and_update_textures p g screen ppp prims delta = none ∧
    (free_texture p g id).isSome = true ∧
    (replace_native_texture p id h2).isSome = true ∧
    p.texture id = lookupA id p.textures := by
  have hset : ∀ (g' : GlState) (id' : TextureId) (d' : ImageDelta),
      set_texture p g' id' d' = none := by
    intro g' id' d'
    unfold set_texture
    rw [hd]
    rfl
  have hpaint : paint_primitives p screen ppp prims g = none := by
    unfold paint_primitives
    rw [hd]
    rfl
  refine ⟨hset g id d, ?_, hpaint, ?_, rfl, rfl, rfl⟩
  · unfold register_native_texture
    rw [hd]
    rfl
  · obtain ⟨sets, frees⟩ := delta
    cases sets with
    | nil =>
        unfold paint_and_update_textures apply_updates
        simp [hpaint]
    | cons e rest =>
        obtain ⟨id', d'⟩ := e
        unfold paint_and_update_textures apply_updates
        simp [hset g id' d']

/-- C5 amended witness: the concrete destroyed painter. -/
theorem destroyed_ops_check_witness :
    cex_destroyed.1.destroyed = true ∧
    set_texture cex_destroyed.1 init_gl sample_tid sample_color_delta = none ∧
    register_native_texture cex_destroyed.1 5 = none ∧
    paint_primitives cex_destroyed.1 (8, 8) 1 [] init_gl = none ∧
    paint_and_update_textures cex_destroyed.1 init_gl (8, 8) 1 [] sample_delta = none ∧
    (free_texture cex_destroyed.1 init_gl sample_tid).isSome = true ∧
    (replace_native_texture cex_destroyed.1 sample_tid 9).isSome = true ∧
    cex_destroyed.1.texture sample_tid = lookupA sample_tid cex_destroyed.1.textures := by
  have hd : cex_destroyed.1.destroyed = true := by decide
  have h := destroyed_ops_check cex_destroyed.1 init_gl sample_tid
    sample_color_delta 5 9 (8, 8) 1 [] sample_delta hd
  exact ⟨hd, h.1, h.2.1, h.2.2.1, h.2.2.2.1, h.2.2.2.2.1, h.2.2.2.2.2.1, h.2.2.2.2.2.2⟩

/-! ### Lemmas about the `entry` (lookup-or-create) step of `set_texture` -/

theorem entry_painter_max (p : Painter) (g : GlState) (id : TextureId) :
    (entry_painter p g id).max_texture_side = p.max_texture_side := by
  unfold entry_painter
  cases lookupA id p.textures <;> rfl

theorem entry_painter_destroyed (p : Painter) (g : GlState) (id : TextureId) :
    (entry_painter p g id).destroyed = p.destroyed := by
  unfold entry_painter
  cases lookupA id p.textures <;> rfl

theorem entry_painter_lookup (p : Painter) (g : GlState) (id : TextureId) :
    lookupA id (entry_painter p g id).textures = some (entry_tex p g id) := by
  unfold entry_painter entry_tex
  cases h : lookupA id p.textures with
  | some t => simpa using h
  | none => simp [lookupA_insertA_self]

theorem entry_gl_contents (p : Painter) (g : GlState) (id : TextureId) :
    (entry_gl p g id).textureContents = g.textureContents := by
  unfold entry_gl
  cases lookupA id p.textures <;> rfl

theorem upload_isSome_iff (p : Painter) (g : GlState) (pos : Option (Nat × Nat))
    (size : Nat × Nat) (filt : TextureFilter) (data : List Texel) :
    (upload_texture_srgb p g pos size filt data).isSome = true ↔
      (4 * data.length = size.1 * size.2 * 4 ∧ (1 ≤ size.1 ∧ 1 ≤ size.2) ∧
       size.1 ≤ p.max_texture_side ∧ size.2 ≤ p.max_texture_side) := by
  unfold upload_texture_srgb
  split_ifs with h1 h2 h3
  · cases pos <;> simp_all
  · simp_all
  · simp_all
  · simp_all

theorem set_texture_core_isSome_iff (p : Painter) (g : GlState)
    (tex_id : TextureId) (delta : ImageDelta) :
    (set_texture_core p g tex_id delta).isSome = true ↔ delta_valid p delta := by
  obtain ⟨image, pos, filt⟩ := delta
  cases image with
  | color im =>
      unfold set_texture_core delta_valid
      dsimp only
      split_ifs with h1
      · rw [Option.isSome_map', upload_isSome_iff, List.length_map,
          entry_painter_max]
        simp only [ColorImage.width, ColorImage.height] at h1 ⊢
        constructor
        · rintro ⟨hc, hwh, hm⟩
          exact ⟨by omega, hwh.1, hwh.2, hm.1, hm.2⟩
        · rintro ⟨hc, hw, hh, hm1, hm2⟩
          exact ⟨by omega, ⟨hw, hh⟩, hm1, hm2⟩
      · simp only [ColorImage.width, ColorImage.height] at h1 ⊢
        simp only [Option.isSome_none, Bool.false_eq_true, false_iff]
        rintro ⟨hc, -⟩
        exact h1 (by omega)
  | font im =>
      unfold set_texture_core delta_valid
      dsimp only
      split_ifs with h1
      · rw [Option.isSome_map', upload_isSome_iff, List.length_map,
          entry_painter_max]
        simp only [FontImage.width, FontImage.height] at h1 ⊢
        constructor
        · rintro ⟨hc, hwh, hm⟩
          exact ⟨by omega, hwh.1, hwh.2, hm.1, hm.2⟩
        · rintro ⟨hc, hw, hh, hm1, hm2⟩
          exact ⟨by omega, ⟨hw, hh⟩, hm1, hm2⟩
      · simp only [FontImage.width, FontImage.height] at h1 ⊢
        simp only [Option.isSome_none, Bool.false_eq_true, false_iff]
        rintro ⟨hc, -⟩
        exact h1 (by omega)

/-- C6: on a live painter, `set_texture` panics (abort-level assertion,
never a silent clamp) **exactly** when a precondition is violated — a
dimension is `0`, a dimension exceeds the device's maximum texture side, or
the supplied texel count differs from width × height of the target region;
for every update satisfying the preconditions no assertion fires. -/
theorem set_texture_assert_iff (p : Painter) (g : GlState) (tex_id : TextureId)
    (delta : ImageDelta) (hd : p.destroyed = false) :
    (set_texture p g tex_id delta).isSome = true ↔ delta_valid p delta := by
  unfold set_texture
  rw [hd]
  simp only [Bool.false_eq_true, if_false, Option.isSome_map']
  exact set_texture_core_isSome_iff p g tex_id delta

/-- C6 witness: a valid 2×2 update on a fresh painter. -/
theorem set_texture_assert_iff_witness :
    sample_painter.destroyed = false ∧
    delta_valid sample_painter sample_color_delta ∧
    ((set_texture sample_painter init_gl sample_tid sample_color_delta).isSome = true ↔
      delta_valid sample_painter sample_color_delta) := by
  refine ⟨rfl, by decide, set_texture_assert_iff sample_painter init_gl sample_tid
    sample_color_delta rfl⟩

/-! ### The re-entrant baseline-restoration invariant -/

theorem prepare_painting_establishes_baseline (p : Painter)
    (screen : Nat × Nat) (ppp : ℚ) (g : GlState) :
    is_baseline p screen ppp (prepare_painting p screen ppp g) := by
  unfold is_baseline prepare_painting
  refine ⟨rfl, rfl, rfl, rfl, rfl, rfl, rfl, rfl, rfl, rfl, rfl, rfl, rfl, rfl⟩

theorem prepare_painting_boundFramebuffer (p : Painter) (screen : Nat × Nat)
    (ppp : ℚ) (g : GlState) :
    (prepare_painting p screen ppp g).boundFramebuffer = g.boundFramebuffer := rfl

theorem run_prims_append_fst (p : Painter) (screen : Nat × Nat) (ppp : ℚ)
    (l₁ l₂ : List ClippedPrimitive) (g : GlState) :
    (run_prims p screen ppp (l₁ ++ l₂) g).1 =
      (run_prims p screen ppp l₂ (run_prims p screen ppp l₁ g).1).1 := by
  induction l₁ generalizing g with
  | nil => rfl
  | cons cp t ih =>
      simp only [List.cons_append, run_prims]
      exact ih _

/-- Processing one dispatched (positive-rect) callback primitive always ends
in the baseline state, with the intermediate target re-bound in corrected
mode. -/
theorem process_prim_callback_baseline (p : Painter) (screen : Nat × Nat)
    (ppp : ℚ) (cp : ClippedPrimitive) (cb : PaintCallback)
    (hcb : cp.primitive = Primitive.callback cb) (hpos : cb.rect.is_positive)
    (g : GlState) :
    is_baseline p screen ppp (process_prim p screen ppp cp g).1 ∧
    (∀ fbo, p.post_process = some fbo →
      (process_prim p screen ppp cp g).1.boundFramebuffer = some fbo) := by
  obtain ⟨cr, prim⟩ := cp
  cases prim with
  | mesh m => exact absurd hcb (by simp)
  | callback cb' =>
      simp only [ClippedPrimitive.primitive, Primitive.callback.injEq] at hcb
      subst hcb
      constructor
      · simp only [process_prim, process_prim_core, if_pos hpos]
        exact prepare_painting_establishes_baseline ..
      · intro fbo hfbo
        simp only [process_prim, process_prim_core, if_pos hpos,
          prepare_painting_boundFramebuffer, hfbo]

/-- C1: after every dispatched `Callback` primitive, the full baseline
device state (scissor test on, cull off, depth off, full color mask,
premultiplied-alpha blend, full-framebuffer viewport, program bound,
screen-size and sampler uniforms set, vertex/index bindings established,
and in corrected mode the intermediate target re-bound) is re-established
before the next primitive: for every primitive list and every index `n`
holding a dispatched callback, the state in which primitive `n+1` starts is
the baseline, whatever device state the callback body left behind. -/
theorem callback_restores_baseline (p : Painter) (screen : Nat × Nat)
    (ppp : ℚ) (l : List ClippedPrimitive) (g0 : GlState) (n : Nat)
    (hn : n < l.length) (cb : PaintCallback)
    (hcb : (l.get ⟨n, hn⟩).primitive = Primitive.callback cb)
    (hpos : cb.rect.is_positive) :
    is_baseline p screen ppp (run_prims p screen ppp (l.take (n + 1)) g0).1 ∧
    (∀ fbo, p.post_process = some fbo →
      (run_prims p screen ppp (l.take (n + 1)) g0).1.boundFramebuffer = some fbo) := by
  have htake := take_succ_get l n hn
  rw [htake]
  rw [run_prims_append_fst]
  have hsingle : ∀ g' : GlState,
      (run_prims p screen ppp [l.get ⟨n, hn⟩] g').1 =
        (process_prim p screen ppp (l.get ⟨n, hn⟩) g').1 := by
    intro g'
    simp [run_prims]
  rw [hsingle]
  exact process_prim_callback_baseline p screen ppp _ cb hcb hpos _

/-- C1 witness: a single dispatched callback primitive that corrupts the
depth-test and program state; the post-callback state is the baseline. -/
theorem callback_restores_baseline_witness :
    0 < [sample_callback_prim].length ∧
    is_baseline sample_painter (8, 8) 1
      (run_prims sample_painter (8, 8) 1 ([sample_callback_prim].take 1) init_gl).1 ∧
    sample_corrected.post_process = some 5 ∧
    (run_prims sample_corrected (8, 8) 1
      ([sample_callback_prim].take 1) init_gl).1.boundFramebuffer = some 5 := by
  have hn : 0 < [sample_callback_prim].length := by decide
  have hcb : ([sample_callback_prim].get ⟨0, hn⟩).primitive =
      Primitive.callback ⟨⟨⟨1, 1⟩, ⟨3, 3⟩⟩,
        CallbackPayload.supported fun _ _ g =>
          ({ g with depthTest := true, program := none }, [GlEvent.drawElements 3])⟩ := rfl
  have hpos : (Rect.mk ⟨1, 1⟩ ⟨3, 3⟩).is_positive := by
    constructor <;> norm_num
  have hfbo : sample_corrected.post_process = some 5 := by decide
  exact ⟨hn, (callback_restores_baseline sample_painter (8, 8) 1
    [sample_callback_prim] init_gl 0 hn _ hcb hpos).1, hfbo,
    (callback_restores_baseline sample_corrected (8, 8) 1
      [sample_callback_prim] init_gl 0 hn _ hcb hpos).2 5 hfbo⟩

/-! ### Temporal ordering of updates, draws and frees within a frame -/

theorem filterMap_updateId_map_gl (gls : List GlEvent) :
    (gls.map Event.gl).filterMap Event.updateId = [] := by
  induction gls with
  | nil => rfl
  | cons a t ih => simp [List.filterMap_cons, Event.updateId, ih]

theorem filterMap_updateId_eq_nil {e : List Event}
    (h : ∀ x ∈ e, x.isUpdate = false) : e.filterMap Event.updateId = [] := by
  induction e with
  | nil => rfl
  | cons a t ih =>
      have ha := h a (by simp)
      have hnone : a.updateId = none := by
        cases a <;> simp_all [Event.isUpdate, Event.updateId]
      simp [List.filterMap_cons, hnone, ih fun x hx => h x (by simp [hx])]

/-- Shape of `set_texture`'s event list: the update marker followed by
device calls only. -/
theorem set_texture_events_shape (p : Painter) (g : GlState) (id : TextureId)
    (d : ImageDelta) (r : Painter × GlState × List Event)
    (h : set_texture p g id d = some r) :
    ∃ gls : List GlEvent, r.2.2 = Event.applyUpdate id :: gls.map Event.gl := by
  unfold set_texture at h
  cases hdest : p.destroyed with
  | true => simp [hdest] at h
  | false =>
      rw [hdest] at h
      simp only [Bool.false_eq_true, if_false, Option.map_eq_some'] at h
      obtain ⟨a, -, hfa⟩ := h
      refine ⟨a.2.2, ?_⟩
      rw [← hfa]

theorem apply_updates_events (l : List (TextureId × ImageDelta)) :
    ∀ (p : Painter) (g : GlState) (r : Painter × GlState × List Event),
      apply_updates l p g = some r →
      (∀ x ∈ r.2.2, x.isDraw = false ∧ x.isFree = false) ∧
      r.2.2.filterMap Event.updateId = l.map Prod.fst := by
  induction l with
  | nil =>
      intro p g r h
      unfold apply_updates at h
      simp only [Option.some.injEq] at h
      rw [← h]
      exact ⟨by simp, rfl⟩
  | cons e rest ih =>
      intro p g r h
      obtain ⟨id, d⟩ := e
      unfold apply_updates at h
      cases hset : set_texture p g id d with
      | none => rw [hset] at h; simp at h
      | some r1 =>
          rw [hset] at h
          cases hrec : apply_updates rest r1.1 r1.2.1 with
          | none => simp [hrec] at h
          | some r2 =>
              simp only [hrec, Option.some.injEq] at h
              obtain ⟨gls, hshape⟩ := set_texture_events_shape p g id d r1 hset
              obtain ⟨ihmem, ihfm⟩ := ih r1.1 r1.2.1 r2 hrec
              rw [← h]
              constructor
              · intro x hx
                simp only [List.mem_append] at hx
                rcases hx with hx1 | hx2
                · rw [hshape] at hx1
                  rcases List.mem_cons.mp hx1 with rfl | hxg
                  · exact ⟨rfl, rfl⟩
                  · obtain ⟨ge, -, rfl⟩ := List.mem_map.mp hxg
                    exact ⟨rfl, rfl⟩
                · exact ihmem x hx2
              · rw [hshape]
                simp only [List.filterMap_append, List.filterMap_cons,
                  Event.updateId, filterMap_updateId_map_gl, List.nil_append,
                  ihfm, List.map_cons]
                rfl

theorem run_prims_events (p : Painter) (screen : Nat × Nat) (ppp : ℚ) :
    ∀ (l : List ClippedPrimitive) (g : GlState),
      ∀ x ∈ (run_prims p screen ppp l g).2,
        x.isUpdate = false ∧ x.isFree = false := by
  intro l
  induction l with
  | nil => intro g x hx; simp [run_prims] at hx
  | cons cp rest ih =>
      intro g x hx
      simp only [run_prims, List.mem_append] at hx
      rcases hx with hx1 | hx2
      · have : x ∈ Event.drawPrimitive ::
            (process_prim_core p screen ppp cp g).2.map Event.gl := hx1
        rcases List.mem_cons.mp this with rfl | hxg
        · exact ⟨rfl, rfl⟩
        · obtain ⟨ge, -, rfl⟩ := List.mem_map.mp hxg
          exact ⟨rfl, rfl⟩
      · exact ih _ x hx2

theorem paint_primitives_events (p : Painter) (screen : Nat × Nat) (ppp : ℚ)
    (prims : List ClippedPrimitive) (g : GlState) (r : GlState × List Event)
    (h : paint_primitives p screen ppp prims g = some r) :
    ∀ x ∈ r.2, x.isUpdate = false ∧ x.isFree = false := by
  unfold paint_primitives at h
  cases hdest : p.destroyed with
  | true => simp [hdest] at h
  | false =>
      rw [hdest] at h
      simp only [Bool.false_eq_true, if_false, Option.some.injEq] at h
      intro x hx
      rw [← h] at hx
      exact run_prims_events p screen ppp prims _ x hx

theorem apply_frees_events (l : List TextureId) :
    ∀ (p : Painter) (g : GlState),
      ∀ x ∈ (apply_frees l p g).2.2, x.isUpdate = false ∧ x.isDraw = false := by
  induction l with
  | nil => intro p g x hx; simp [apply_frees] at hx
  | cons id rest ih =>
      intro p g x hx
      simp only [apply_frees, List.mem_append] at hx
      rcases hx with hx1 | hx2
      · have : x ∈ Event.applyFree id ::
            (free_texture_core p g id).2.2.map Event.gl := hx1
        rcases List.mem_cons.mp this with rfl | hxg
        · exact ⟨rfl, rfl⟩
        · obtain ⟨ge, -, rfl⟩ := List.mem_map.mp hxg
          exact ⟨rfl, rfl⟩
      · exact ih _ _ x hx2

/-- Split-ordering: on `a ++ b ++ c`, an index with `P` (absent from `b`
and `c`) precedes any index with `Q` (absent from `a`). -/
theorem three_seg_order {alpha : Type} {P Q : alpha → Bool} (a b c : List alpha)
    {i j : Nat}
    (hi : i < (a ++ b ++ c).length) (hj : j < (a ++ b ++ c).length)
    (hPi : P ((a ++ b ++ c).get ⟨i, hi⟩) = true)
    (hQj : Q ((a ++ b ++ c).get ⟨j, hj⟩) = true)
    (hPb : ∀ e ∈ b, P e = false) (hPc : ∀ e ∈ c, P e = false)
    (hQa : ∀ e ∈ a, Q e = false) : i < j := by
  have hassoc : a ++ b ++ c = a ++ (b ++ c) := List.append_assoc a b c
  have hi2 : i < (a ++ (b ++ c)).length := by rw [← hassoc]; exact hi
  have hj2 : j < (a ++ (b ++ c)).length := by rw [← hassoc]; exact hj
  have hgi : (a ++ b ++ c).get ⟨i, hi⟩ = (a ++ (b ++ c)).get ⟨i, hi2⟩ :=
    List.get_of_eq hassoc ⟨i, hi⟩
  have hgj : (a ++ b ++ c).get ⟨j, hj⟩ = (a ++ (b ++ c)).get ⟨j, hj2⟩ :=
    List.get_of_eq hassoc ⟨j, hj⟩
  have h1 : i < a.length := by
    refine @index_in_left alpha P a (b ++ c) i hi2 ?_ ?_
    · rw [← hgi]; exact hPi
    · intro e he
      rcases List.mem_append.mp he with hh | hh
      · exact hPb e hh
      · exact hPc e hh
  have h2 : a.length ≤ j := by
    refine @index_in_right alpha Q a (b ++ c) j hj2 ?_ hQa
    rw [← hgj]; exact hQj
  omega

/-- Split-ordering at the second seam: an index with `P` (absent from `c`)
precedes any index with `Q` (absent from `a` and `b`). -/
theorem three_seg_order2 {alpha : Type} {P Q : alpha → Bool} (a b c : List alpha)
    {i j : Nat}
    (hi : i < (a ++ b ++ c).length) (hj : j < (a ++ b ++ c).length)
    (hPi : P ((a ++ b ++ c).get ⟨i, hi⟩) = true)
    (hQj : Q ((a ++ b ++ c).get ⟨j, hj⟩) = true)
    (hPc : ∀ e ∈ c, P e = false)
    (hQa : ∀ e ∈ a, Q e = false) (hQb : ∀ e ∈ b, Q e = false) : i < j := by
  have h1 : i < (a ++ b).length := @index_in_left alpha P (a ++ b) c i hi hPi hPc
  have h2 : (a ++ b).length ≤ j := by
    refine @index_in_right alpha Q (a ++ b) c j hj hQj ?_
    intro e he
    rcases List.mem_append.mp he with hh | hh
    · exact hQa e hh
    · exact hQb e hh
  omega

/-- C3: in a frame submitted through `paint_and_update_textures`, every
texture update of the delta is applied — in the set's iteration order —
strictly before any primitive is drawn, and every texture free of the delta
is applied strictly after every primitive has drawn (so a primitive may
still reference a texture being freed in the same frame). -/
theorem paint_frame_texture_ordering (p : Painter) (g : GlState)
    (screen : Nat × Nat) (ppp : ℚ) (prims : List ClippedPrimitive)
    (delta : TexturesDelta) (p' : Painter) (g' : GlState) (evs : List Event)
    (h : paint_and_update_textures p g screen ppp prims delta = some (p', g', evs)) :
    (∀ i j (hi : i < evs.length) (hj : j < evs.length),
       (evs.get ⟨i, hi⟩).isUpdate = true → (evs.get ⟨j, hj⟩).isDraw = true →
       i < j) ∧
    (∀ i j (hi : i < evs.length) (hj : j < evs.length),
       (evs.get ⟨i, hi⟩).isDraw = true → (evs.get ⟨j, hj⟩).isFree = true →
       i < j) ∧
    evs.filterMap Event.updateId = delta.set.map Prod.fst := by
  unfold paint_and_update_textures at h
  cases hu : apply_updates delta.set p g with
  | none => rw [hu] at h; simp at h
  | some r1 =>
      rw [hu] at h
      dsimp only at h
      cases hp : paint_primitives r1.1 screen ppp prims r1.2.1 with
      | none => rw [hp] at h; simp at h
      | some r2 =>
          rw [hp] at h
          dsimp only at h
          simp only [Option.some.injEq, Prod.mk.injEq] at h
          obtain ⟨-, -, hevs⟩ := h
          subst hevs
          obtain ⟨hu_mem, hu_fm⟩ := apply_updates_events delta.set p g r1 hu
          have hp_mem := paint_primitives_events r1.1 screen ppp prims r1.2.1 r2 hp
          have hf_mem := apply_frees_events delta.free r1.1 r2.1
          refine ⟨?_, ?_, ?_⟩
          · intro i j hi hj hiu hjd
            refine three_seg_order _ _ _ hi hj hiu hjd ?_ ?_ ?_
            · intro e he; exact (hp_mem e he).1
            · intro e he; exact (hf_mem e he).1
            · intro e he; exact (hu_mem e he).1
          · intro i j hi hj hid hjf
            refine three_seg_order2 _ _ _ hi hj hid hjf ?_ ?_ ?_
            · intro e he; exact (hf_mem e he).2
            · intro e he; exact (hu_mem e he).2
            · intro e he; exact (hp_mem e he).2
          · simp only [List.filterMap_append, hu_fm]
            rw [filterMap_updateId_eq_nil fun x hx => (hp_mem x hx).1,
              filterMap_updateId_eq_nil fun x hx => (hf_mem x hx).1]
            simp

/-- C3 witness: the sample frame (one update, no primitives, one free),
evaluated concretely. -/
theorem paint_frame_texture_ordering_witness :
    paint_and_update_textures sample_painter init_gl (8, 8) 1 [] sample_delta =
      some (sample_painter, c3_g, c3_e) ∧
    (∀ i j (hi : i < c3_e.length) (hj : j < c3_e.length),
       (c3_e.get ⟨i, hi⟩).isUpdate = true → (c3_e.get ⟨j, hj⟩).isDraw = true →
       i < j) ∧
    (∀ i j (hi : i < c3_e.length) (hj : j < c3_e.length),
       (c3_e.get ⟨i, hi⟩).isDraw = true → (c3_e.get ⟨j, hj⟩).isFree = true →
       i < j) ∧
    c3_e.filterMap Event.updateId = sample_delta.set.map Prod.fst := by
  have h : paint_and_update_textures sample_painter init_gl (8, 8) 1 [] sample_delta =
      some (sample_painter, c3_g, c3_e) := rfl
  exact ⟨h, paint_frame_texture_ordering sample_painter init_gl (8, 8) 1 []
    sample_delta sample_painter c3_g c3_e h⟩

/-! ### Full-upload / sub-patch round trip -/

theorem getD_map_of_lt {α β : Type} (f : α → β) :
    ∀ (l : List α) (i : Nat) (db : β) (da : α), i < l.length →
      (l.map f).getD i db = f (l.getD i da)
  | [], _, _, _, h => absurd h (by simp)
  | _ :: _, 0, _, _, _ => rfl
  | _ :: t, i + 1, db, da, h => getD_map_of_lt f t i db da (by simpa using h)

theorem patch_pixels_length {α : Type} (d : α) (bigW : Nat) (old : List α)
    (x y w h : Nat) (patch : List α) :
    (patch_pixels d bigW old x y w h patch).length = old.length := by
  unfold patch_pixels
  rw [List.length_map, List.length_range]

/-- The device-side sub-image write agrees with the spec-side patch at any
pixel type, mapped through the texel conversion `f`. -/
theorem patch_data_map_pixels {α : Type} (f : α → Texel) (d : α) (bigW : Nat)
    (old : List α) (x y pw ph : Nat) (patch : List α)
    (hcnt : patch.length = pw * ph) :
    patch_data bigW (old.map f) x y pw ph (patch.map f)
      = (patch_pixels d bigW old x y pw ph patch).map f := by
  unfold patch_data patch_pixels
  rw [List.length_map, List.map_map]
  refine List.map_congr_left ?_
  intro i hi
  rw [List.mem_range] at hi
  dsimp only [Function.comp]
  set r := i / bigW with hrdef
  set c := i % bigW with hcdef
  split_ifs with hc
  · obtain ⟨hx1, hx2, hy1, hy2⟩ := hc
    refine getD_map_of_lt f patch _ _ d ?_
    rw [hcnt]
    obtain ⟨ph1, rfl⟩ : ∃ ph1, ph = ph1 + 1 := ⟨ph - 1, by omega⟩
    have h1 : r - y ≤ ph1 := by omega
    have h2 : (r - y) * pw ≤ ph1 * pw := Nat.mul_le_mul_right pw h1
    have h3 : pw * (ph1 + 1) = ph1 * pw + pw := by ring
    omega
  · exact getD_map_of_lt f old _ _ d hi

theorem patched_image_pixels (img patch : ColorImage) (x y : Nat) :
    (patched_image img patch x y).pixels =
      patch_pixels (0, 0, 0, 0) img.width img.pixels x y patch.width
        patch.height patch.pixels := rfl

theorem patched_font_image_pixels (img patch : FontImage) (x y : Nat) :
    (patched_font_image img patch x y).pixels =
      patch_pixels 0 img.width img.pixels x y patch.width
        patch.height patch.pixels := rfl

theorem patch_data_map_color (img patch : ColorImage) (x y : Nat)
    (hcnt : patch.pixels.length = patch.width * patch.height) :
    patch_data img.width (img.pixels.map Texel.color) x y patch.width
        patch.height (patch.pixels.map Texel.color)
      = (patched_image img patch x y).pixels.map Texel.color := by
  rw [patched_image_pixels]
  exact patch_data_map_pixels Texel.color (0, 0, 0, 0) img.width img.pixels x y
    patch.width patch.height patch.pixels hcnt

theorem patch_data_map_font (gam : ℚ) (img patch : FontImage) (x y : Nat)
    (hcnt : patch.pixels.length = patch.width * patch.height) :
    patch_data img.width (img.pixels.map (Texel.font gam)) x y patch.width
        patch.height (patch.pixels.map (Texel.font gam))
      = (patched_font_image img patch x y).pixels.map (Texel.font gam) := by
  rw [patched_font_image_pixels]
  exact patch_data_map_pixels (Texel.font gam) 0 img.width img.pixels x y
    patch.width patch.height patch.pixels hcnt

/-- Computation of a full-replacement color upload. -/
theorem set_texture_full_color (p : Painter) (g : GlState) (id : TextureId)
    (im : ColorImage) (filt : TextureFilter)
    (hd : p.destroyed = false)
    (hcnt : im.width * im.height = im.pixels.length)
    (hw : 1 ≤ im.width) (hh : 1 ≤ im.height)
    (hwm : im.width ≤ p.max_texture_side) (hhm : im.height ≤ p.max_texture_side) :
    set_texture p g id { image := ImageData.color im, pos := none, filter := filt } =
      some (entry_painter p g id,
        { entry_gl p g id with
            boundTexture := some (entry_tex p g id)
            textureContents := insertA (entry_tex p g id)
              ⟨im.width, im.height, im.pixels.map Texel.color⟩
              g.textureContents },
        Event.applyUpdate id ::
          (entry_events p g id ++
            [GlEvent.texImage2d (upload_formats (entry_painter p g id)).1
              im.size.1 im.size.2]).map Event.gl) := by
  have h4 : 4 * (im.pixels.map Texel.color).length = im.size.1 * im.size.2 * 4 := by
    rw [List.length_map]
    unfold ColorImage.width ColorImage.height at hcnt
    omega
  have h12 : 1 ≤ im.size.1 ∧ 1 ≤ im.size.2 := ⟨hw, hh⟩
  have hm : im.size.1 ≤ p.max_texture_side ∧ im.size.2 ≤ p.max_texture_side :=
    ⟨hwm, hhm⟩
  cases hl : lookupA id p.textures with
  | some t0 =>
      unfold set_texture
      rw [hd]
      simp only [Bool.false_eq_true, if_false]
      unfold set_texture_core entry_painter entry_gl entry_tex entry_events
        upload_formats
      rw [hl]
      dsimp only
      rw [if_pos hcnt]
      unfold upload_texture_srgb
      dsimp only
      rw [if_pos h4, if_pos h12, if_pos hm]
      unfold tex_image_2d
      dsimp only
      rfl
  | none =>
      unfold set_texture
      rw [hd]
      simp only [Bool.false_eq_true, if_false]
      unfold set_texture_core entry_painter entry_gl entry_tex entry_events
        upload_formats
      rw [hl]
      dsimp only
      rw [if_pos hcnt]
      unfold upload_texture_srgb
      dsimp only
      rw [if_pos h4, if_pos h12, if_pos hm]
      unfold tex_image_2d
      dsimp only
      rfl

/-- Computation of a sub-region color patch on an existing texture. -/
theorem set_texture_sub_color (p : Painter) (g : GlState) (id : TextureId)
    (t : Nat) (pim : ColorImage) (x y : Nat) (filt : TextureFilter)
    (hd : p.destroyed = false)
    (hl : lookupA id p.textures = some t)
    (hcnt : pim.width * pim.height = pim.pixels.length)
    (hw : 1 ≤ pim.width) (hh : 1 ≤ pim.height)
    (hwm : pim.width ≤ p.max_texture_side) (hhm : pim.height ≤ p.max_texture_side) :
    set_texture p g id
        { image := ImageData.color pim, pos := some (x, y), filter := filt } =
      some (p,
        tex_sub_image_2d { g with boundTexture := some t } x y pim.width
          pim.height (pim.pixels.map Texel.color),
        [Event.applyUpdate id,
         Event.gl (GlEvent.texSubImage2d (upload_formats p).2 x y
           pim.size.1 pim.size.2)]) := by
  have h4 : 4 * (pim.pixels.map Texel.color).length = pim.size.1 * pim.size.2 * 4 := by
    rw [List.length_map]
    unfold ColorImage.width ColorImage.height at hcnt
    omega
  have h12 : 1 ≤ pim.size.1 ∧ 1 ≤ pim.size.2 := ⟨hw, hh⟩
  have hm : pim.size.1 ≤ p.max_texture_side ∧ pim.size.2 ≤ p.max_texture_side :=
    ⟨hwm, hhm⟩
  unfold set_texture
  rw [hd]
  simp only [Bool.false_eq_true, if_false]
  unfold set_texture_core entry_painter entry_gl entry_tex entry_events
  rw [hl]
  dsimp only
  rw [if_pos hcnt]
  unfold upload_texture_srgb
  dsimp only
  rw [if_pos h4, if_pos h12, if_pos hm]
  rfl

/-- Computation of a full-replacement font upload (coverage converted with
the painter's construction-determined gamma). -/
theorem set_texture_full_font (p : Painter) (g : GlState) (id : TextureId)
    (im : FontImage) (filt : TextureFilter)
    (hd : p.destroyed = false)
    (hcnt : im.width * im.height = im.pixels.length)
    (hw : 1 ≤ im.width) (hh : 1 ≤ im.height)
    (hwm : im.width ≤ p.max_texture_side) (hhm : im.height ≤ p.max_texture_side) :
    set_texture p g id { image := ImageData.font im, pos := none, filter := filt } =
      some (entry_painter p g id,
        { entry_gl p g id with
            boundTexture := some (entry_tex p g id)
            textureContents := insertA (entry_tex p g id)
              ⟨im.width, im.height,
               im.pixels.map (Texel.font (font_gamma (entry_painter p g id)))⟩
              g.textureContents },
        Event.applyUpdate id ::
          (entry_events p g id ++
            [GlEvent.texImage2d (upload_formats (entry_painter p g id)).1
              im.size.1 im.size.2]).map Event.gl) := by
  have h4 : 4 * im.pixels.length = im.size.1 * im.size.2 * 4 := by
    unfold FontImage.width FontImage.height at hcnt
    omega
  have h12 : 1 ≤ im.size.1 ∧ 1 ≤ im.size.2 := ⟨hw, hh⟩
  have hm : im.size.1 ≤ p.max_texture_side ∧ im.size.2 ≤ p.max_texture_side :=
    ⟨hwm, hhm⟩
  cases hl : lookupA id p.textures with
  | some t0 =>
      unfold set_texture
      rw [hd]
      simp only [Bool.false_eq_true, if_false]
      unfold set_texture_core entry_painter entry_gl entry_tex entry_events
        upload_formats
      rw [hl]
      dsimp only
      rw [if_pos hcnt]
      unfold upload_texture_srgb
      dsimp only
      simp only [List.length_map]
      rw [if_pos h4, if_pos h12, if_pos hm]
      unfold tex_image_2d
      dsimp only
      rfl
  | none =>
      unfold set_texture
      rw [hd]
      simp only [Bool.false_eq_true, if_false]
      unfold set_texture_core entry_painter entry_gl entry_tex entry_events
        upload_formats
      rw [hl]
      dsimp only
      rw [if_pos hcnt]
      unfold upload_texture_srgb
      dsimp only
      simp only [List.length_map]
      rw [if_pos h4, if_pos h12, if_pos hm]
      unfold tex_image_2d
      dsimp only
      rfl

/-- Computation of a sub-region font patch on an existing texture. -/
theorem set_texture_sub_font (p : Painter) (g : GlState) (id : TextureId)
    (t : Nat) (pim : FontImage) (x y : Nat) (filt : TextureFilter)
    (hd : p.destroyed = false)
    (hl : lookupA id p.textures = some t)
    (hcnt : pim.width * pim.height = pim.pixels.length)
    (hw : 1 ≤ pim.width) (hh : 1 ≤ pim.height)
    (hwm : pim.width ≤ p.max_texture_side) (hhm : pim.height ≤ p.max_texture_side) :
    set_texture p g id
        { image := ImageData.font pim, pos := some (x, y), filter := filt } =
      some (p,
        tex_sub_image_2d { g with boundTexture := some t } x y pim.width
          pim.height (pim.pixels.map (Texel.font (font_gamma p))),
        [Event.applyUpdate id,
         Event.gl (GlEvent.texSubImage2d (upload_formats p).2 x y
           pim.size.1 pim.size.2)]) := by
  have h4 : 4 * pim.pixels.length = pim.size.1 * pim.size.2 * 4 := by
    unfold FontImage.width FontImage.height at hcnt
    omega
  have h12 : 1 ≤ pim.size.1 ∧ 1 ≤ pim.size.2 := ⟨hw, hh⟩
  have hm : pim.size.1 ≤ p.max_texture_side ∧ pim.size.2 ≤ p.max_texture_side :=
    ⟨hwm, hhm⟩
  unfold set_texture
  rw [hd]
  simp only [Bool.false_eq_true, if_false]
  unfold set_texture_core entry_painter entry_gl entry_tex entry_events
  rw [hl]
  dsimp only
  rw [if_pos hcnt]
  unfold upload_texture_srgb
  dsimp only
  simp only [List.length_map]
  rw [if_pos h4, if_pos h12, if_pos hm]
  rfl

/-- Round trip for the color kind. -/
theorem set_texture_patch_roundtrip_color (p : Painter) (g : GlState)
    (id : TextureId) (img patch : ColorImage) (x y : Nat) (filt : TextureFilter)
    (hd : p.destroyed = false)
    (himgc : img.width * img.height = img.pixels.length)
    (himgw : 1 ≤ img.width) (himgh : 1 ≤ img.height)
    (himgwm : img.width ≤ p.max_texture_side)
    (himghm : img.height ≤ p.max_texture_side)
    (hpc : patch.width * patch.height = patch.pixels.length)
    (hpw : 1 ≤ patch.width) (hph : 1 ≤ patch.height)
    (hpwm : patch.width ≤ p.max_texture_side)
    (hphm : patch.height ≤ p.max_texture_side)
    (hfitx : x + patch.width ≤ img.width)
    (hfity : y + patch.height ≤ img.height) :
    ∃ (p1 p2 p3 : Painter) (g1 g2 g3 : GlState) (e1 e2 e3 : List Event),
      set_texture p g id
          { image := ImageData.color img, pos := none, filter := filt } =
        some (p1, g1, e1) ∧
      set_texture p1 g1 id
          { image := ImageData.color patch, pos := some (x, y), filter := filt } =
        some (p2, g2, e2) ∧
      set_texture p g id
          { image := ImageData.color (patched_image img patch x y), pos := none,
            filter := filt } =
        some (p3, g3, e3) ∧
      contents_at p2 g2 id = contents_at p3 g3 id ∧
      contents_at p2 g2 id =
        some ⟨img.width, img.height,
          (patched_image img patch x y).pixels.map Texel.color⟩ := by
  have h1 := set_texture_full_color p g id img filt hd himgc himgw himgh himgwm himghm
  have hd1 : (entry_painter p g id).destroyed = false := by
    rw [entry_painter_destroyed]
    exact hd
  have hl1 : lookupA id (entry_painter p g id).textures = some (entry_tex p g id) :=
    entry_painter_lookup p g id
  have hpwm1 : patch.width ≤ (entry_painter p g id).max_texture_side := by
    rw [entry_painter_max]
    exact hpwm
  have hphm1 : patch.height ≤ (entry_painter p g id).max_texture_side := by
    rw [entry_painter_max]
    exact hphm
  have h2 := set_texture_sub_color (entry_painter p g id)
    ({ entry_gl p g id with
        boundTexture := some (entry_tex p g id)
        textureContents := insertA (entry_tex p g id)
          ⟨img.width, img.height, img.pixels.map Texel.color⟩
          g.textureContents })
    id (entry_tex p g id) patch x y filt hd1 hl1 hpc hpw hph hpwm1 hphm1
  have hc3 : (patched_image img patch x y).width *
      (patched_image img patch x y).height =
      (patched_image img patch x y).pixels.length := by
    unfold patched_image ColorImage.width ColorImage.height
    dsimp only
    rw [patch_pixels_length]
    exact himgc
  have h3 := set_texture_full_color p g id (patched_image img patch x y) filt hd
    hc3 himgw himgh himgwm himghm
  refine ⟨_, _, _, _, _, _, _, _, _, h1, h2, h3, ?_, ?_⟩
  · unfold contents_at Painter.texture
    rw [entry_painter_lookup]
    unfold tex_sub_image_2d
    dsimp only
    rw [lookupA_insertA_self]
    dsimp only
    rw [if_pos ⟨hfitx, hfity⟩]
    dsimp only [Option.bind]
    rw [lookupA_insertA_self, lookupA_insertA_self]
    rw [patch_data_map_color img patch x y hpc.symm]
    rfl
  · unfold contents_at Painter.texture
    rw [entry_painter_lookup]
    unfold tex_sub_image_2d
    dsimp only
    rw [lookupA_insertA_self]
    dsimp only
    rw [if_pos ⟨hfitx, hfity⟩]
    dsimp only [Option.bind]
    rw [lookupA_insertA_self]
    rw [patch_data_map_color img patch x y hpc.symm]

/-- Round trip for the font kind (uploads converted with the
construction-determined gamma on both paths). -/
theorem set_texture_patch_roundtrip_font (p : Painter) (g : GlState)
    (id : TextureId) (img patch : FontImage) (x y : Nat) (filt : TextureFilter)
    (hd : p.destroyed = false)
    (himgc : img.width * img.height = img.pixels.length)
    (himgw : 1 ≤ img.width) (himgh : 1 ≤ img.height)
    (himgwm : img.width ≤ p.max_texture_side)
    (himghm : img.height ≤ p.max_texture_side)
    (hpc : patch.width * patch.height = patch.pixels.length)
    (hpw : 1 ≤ patch.width) (hph : 1 ≤ patch.height)
    (hpwm : patch.width ≤ p.max_texture_side)
    (hphm : patch.height ≤ p.max_texture_side)
    (hfitx : x + patch.width ≤ img.width)
    (hfity : y + patch.height ≤ img.height) :
    ∃ (p1 p2 p3 : Painter) (g1 g2 g3 : GlState) (e1 e2 e3 : List Event),
      set_texture p g id
          { image := ImageData.font img, pos := none, filter := filt } =
        some (p1, g1, e1) ∧
      set_texture p1 g1 id
          { image := ImageData.font patch, pos := some (x, y), filter := filt } =
        some (p2, g2, e2) ∧
      set_texture p g id
          { image := ImageData.font (patched_font_image img patch x y), pos := none,
            filter := filt } =
        some (p3, g3, e3) ∧
      contents_at p2 g2 id = contents_at p3 g3 id ∧
      contents_at p2 g2 id =
        some ⟨img.width, img.height,
          (patched_font_image img patch x y).pixels.map
            (Texel.font (font_gamma (entry_painter p g id)))⟩ := by
  have h1 := set_texture_full_font p g id img filt hd himgc himgw himgh himgwm himghm
  have hd1 : (entry_painter p g id).destroyed = false := by
    rw [entry_painter_destroyed]
    exact hd
  have hl1 : lookupA id (entry_painter p g id).textures = some (entry_tex p g id) :=
    entry_painter_lookup p g id
  have hpwm1 : patch.width ≤ (entry_painter p g id).max_texture_side := by
    rw [entry_painter_max]
    exact hpwm
  have hphm1 : patch.height ≤ (entry_painter p g id).max_texture_side := by
    rw [entry_painter_max]
    exact hphm
  have h2 := set_texture_sub_font (entry_painter p g id)
    ({ entry_gl p g id with
        boundTexture := some (entry_tex p g id)
        textureContents := insertA (entry_tex p g id)
          ⟨img.width, img.height,
           img.pixels.map (Texel.font (font_gamma (entry_painter p g id)))⟩
          g.textureContents })
    id (entry_tex p g id) patch x y filt hd1 hl1 hpc hpw hph hpwm1 hphm1
  have hc3 : (patched_font_image img patch x y).width *
      (patched_font_image img patch x y).height =
      (patched_font_image img patch x y).pixels.length := by
    unfold patched_font_image FontImage.width FontImage.height
    dsimp only
    rw [patch_pixels_length]
    exact himgc
  have h3 := set_texture_full_font p g id (patched_font_image img patch x y) filt hd
    hc3 himgw himgh himgwm himghm
  refine ⟨_, _, _, _, _, _, _, _, _, h1, h2, h3, ?_, ?_⟩
  · unfold contents_at Painter.texture
    rw [entry_painter_lookup]
    unfold tex_sub_image_2d
    dsimp only
    rw [lookupA_insertA_self]
    dsimp only
    rw [if_pos ⟨hfitx, hfity⟩]
    dsimp only [Option.bind]
    rw [lookupA_insertA_self, lookupA_insertA_self]
    rw [patch_data_map_font (font_gamma (entry_painter p g id)) img patch x y hpc.symm]
    rfl
  · unfold contents_at Painter.texture
    rw [entry_painter_lookup]
    unfold tex_sub_image_2d
    dsimp only
    rw [lookupA_insertA_self]
    dsimp only
    rw [if_pos ⟨hfitx, hfity⟩]
    dsimp only [Option.bind]
    rw [lookupA_insertA_self]
    rw [patch_data_map_font (font_gamma (entry_painter p g id)) img patch x y hpc.symm]

/-- C9: for a full image `I` and sub-region patch `P` of either kind (color
or font coverage) with `P` fitting inside `I`, a full-replacement upload of
`I` followed immediately by the sub-region patch leaves the texture's pixel
contents equal to a single full-replacement upload of `I` with `P`'s region
overwritten — pixel-level round-trip equivalence. -/
theorem set_texture_patch_roundtrip (p : Painter) (g : GlState) (id : TextureId)
    (full patchD patched : ImageData) (x y : Nat) (filt : TextureFilter)
    (hd : p.destroyed = false)
    (hfc : full.count = full.width * full.height)
    (hfw : 1 ≤ full.width) (hfh : 1 ≤ full.height)
    (hfwm : full.width ≤ p.max_texture_side)
    (hfhm : full.height ≤ p.max_texture_side)
    (hpc : patchD.count = patchD.width * patchD.height)
    (hpw : 1 ≤ patchD.width) (hph : 1 ≤ patchD.height)
    (hpwm : patchD.width ≤ p.max_texture_side)
    (hphm : patchD.height ≤ p.max_texture_side)
    (hfitx : x + patchD.width ≤ full.width)
    (hfity : y + patchD.height ≤ full.height)
    (hpk : patched_image_data full patchD x y = some patched) :
    ∃ (p1 p2 p3 : Painter) (g1 g2 g3 : GlState) (e1 e2 e3 : List Event),
      set_texture p g id { image := full, pos := none, filter := filt } =
        some (p1, g1, e1) ∧
      set_texture p1 g1 id { image := patchD, pos := some (x, y), filter := filt } =
        some (p2, g2, e2) ∧
      set_texture p g id { image := patched, pos := none, filter := filt } =
        some (p3, g3, e3) ∧
      contents_at p2 g2 id = contents_at p3 g3 id ∧
      contents_at p2 g2 id =
        some ⟨full.width, full.height,
          image_texels (entry_painter p g id) patched⟩ := by
  cases full with
  | color a =>
      cases patchD with
      | color b =>
          simp only [patched_image_data, Option.some.injEq] at hpk
          subst hpk
          exact set_texture_patch_roundtrip_color p g id a b x y filt hd
            hfc.symm hfw hfh hfwm hfhm hpc.symm hpw hph hpwm hphm hfitx hfity
      | font b => simp [patched_image_data] at hpk
  | font a =>
      cases patchD with
      | color b => simp [patched_image_data] at hpk
      | font b =>
          simp only [patched_image_data, Option.some.injEq] at hpk
          subst hpk
          exact set_texture_patch_roundtrip_font p g id a b x y filt hd
            hfc.symm hfw hfh hfwm hfhm hpc.symm hpw hph hpwm hphm hfitx hfity

/-- C9 witness: a 2×2 color image patched with a 1×1 color sub-region at
(1, 0), and a 2×2 font-coverage image patched with a 1×1 coverage sub-region
at (1, 0). -/
theorem set_texture_patch_roundtrip_witness :
    sample_painter.destroyed = false ∧
    patched_image_data (ImageData.color sample_img) (ImageData.color sample_patch)
        1 0 = some (ImageData.color (patched_image sample_img sample_patch 1 0)) ∧
    patched_image_data (ImageData.font sample_font_img)
        (ImageData.font sample_font_patch) 1 0 =
      some (ImageData.font (patched_font_image sample_font_img sample_font_patch 1 0)) ∧
    (∃ (p1 p2 p3 : Painter) (g1 g2 g3 : GlState) (e1 e2 e3 : List Event),
      set_texture sample_painter init_gl sample_tid
          { image := ImageData.color sample_img, pos := none,
            filter := TextureFilter.linear } =
        some (p1, g1, e1) ∧
      set_texture p1 g1 sample_tid
          { image := ImageData.color sample_patch, pos := some (1, 0),
            filter := TextureFilter.linear } =
        some (p2, g2, e2) ∧
      set_texture sample_painter init_gl sample_tid
          { image := ImageData.color (patched_image sample_img sample_patch 1 0),
            pos := none, filter := TextureFilter.linear } =
        some (p3, g3, e3) ∧
      contents_at p2 g2 sample_tid = contents_at p3 g3 sample_tid ∧
      contents_at p2 g2 sample_tid =
        some ⟨(ImageData.color sample_img).width, (ImageData.color sample_img).height,
          image_texels (entry_painter sample_painter init_gl sample_tid)
            (ImageData.color (patched_image sample_img sample_patch 1 0))⟩) ∧
    (∃ (p1 p2 p3 : Painter) (g1 g2 g3 : GlState) (e1 e2 e3 : List Event),
      set_texture sample_painter init_gl sample_tid
          { image := ImageData.font sample_font_img, pos := none,
            filter := TextureFilter.linear } =
        some (p1, g1, e1) ∧
      set_texture p1 g1 sample_tid
          { image := ImageData.font sample_font_patch, pos := some (1, 0),
            filter := TextureFilter.linear } =
        some (p2, g2, e2) ∧
      set_texture sample_painter init_gl sample_tid
          { image := ImageData.font
              (patched_font_image sample_font_img sample_font_patch 1 0),
            pos := none, filter := TextureFilter.linear } =
        some (p3, g3, e3) ∧
      contents_at p2 g2 sample_tid = contents_at p3 g3 sample_tid ∧
      contents_at p2 g2 sample_tid =
        some ⟨(ImageData.font sample_font_img).width,
          (ImageData.font sample_font_img).height,
          image_texels (entry_painter sample_painter init_gl sample_tid)
            (ImageData.font
              (patched_font_image sample_font_img sample_font_patch 1 0))⟩) :=
  ⟨rfl, rfl, rfl,
    set_texture_patch_roundtrip sample_painter init_gl sample_tid
      (ImageData.color sample_img) (ImageData.color sample_patch)
      (ImageData.color (patched_image sample_img sample_patch 1 0)) 1 0
      TextureFilter.linear rfl (by decide) (by decide) (by decide) (by decide)
      (by decide) (by decide) (by decide) (by decide) (by decide) (by decide)
      (by decide) (by decide) rfl,
    set_texture_patch_roundtrip sample_painter init_gl sample_tid
      (ImageData.font sample_font_img) (ImageData.font sample_font_patch)
      (ImageData.font (patched_font_image sample_font_img sample_font_patch 1 0))
      1 0 TextureFilter.linear rfl (by decide) (by decide) (by decide) (by decide)
      (by decide) (by decide) (by decide) (by decide) (by decide) (by decide)
      (by decide) (by decide) rfl⟩

end EguiGlow
